import Mathlib

/-!
# Species panel and map script (`src/app.js`): a shallow embedding

The script is browser JavaScript.  Its data (the species catalog, remote
response bodies, labels, coordinates) is dynamically typed, so the embedding
works over a type `JsVal` of JSON-like values extended with `undefined`.

* Numbers are IEEE doubles in the source.  The script only compares them with
  integer constants, clamps them and subtracts one from a clamped value, all
  of which are exact; a finite number is therefore represented by the rational
  it denotes (`JsNum.fin`), next to `NaN` and the two infinities.
* Thrown exceptions are the `error` side of `Except String`, the string being
  the exception's `message`.
* Built-ins of the language whose result depends on string formatting or on
  user-definable conversion (`Number` on strings and objects, `ToString`,
  `toLowerCase`, `join`, a method call on a non-array receiver) are fields
  of `Runtime`; every theorem holds for every runtime.
* The mapping library is modelled by what the script asks of it: the heat
  overlay's point list, the routes of the route group and the viewport.
-/

namespace App

/-! ## Values -/

/-- A JavaScript number: a finite value (the rational it denotes), `NaN`,
`Infinity` or `-Infinity`. -/
inductive JsNum where
  | fin (q : ℚ)
  | nan
  | posInf
  | negInf
deriving DecidableEq

/-- JSON-like JavaScript values, with `undefined`. An object is its list of
own properties; a property read takes the first entry with the key. -/
inductive JsVal where
  | undefined
  | null
  | bool (b : Bool)
  | num (n : JsNum)
  | str (s : String)
  | arr (xs : List JsVal)
  | obj (fields : List (String × JsVal))

instance : Inhabited JsVal := ⟨JsVal.undefined⟩

/-- Built-ins the embedding does not compute. -/
structure Runtime where
  /-- `Number(v)` for `v` a string, an array or an object. -/
  toNumberObj : JsVal → Except String JsNum
  /-- `ToString(v)` for `v` other than a string, `null` and `undefined`. -/
  toStringVal : JsVal → Except String String
  /-- `String.prototype.toLowerCase`. -/
  toLowerCase : String → String
  /-- `xs.join(sep)` on an array. -/
  join : List JsVal → String → Except String String
  /-- `v.includes(n)` on a truthy receiver `v` that is not an array. -/
  includesOther : JsVal → JsNum → Except String JsVal
  /-- `s[i]` on a string. -/
  strAt : String → Nat → JsVal
  /-- `encodeURIComponent(ToString(v))` for a truthy `v`. -/
  encodeURIComponent : JsVal → Except String String

/-- The value of a string of decimal digits. -/
def digitsValue (cs : List Char) : Nat :=
  cs.foldl (fun n c => 10 * n + (c.toNat - 48)) 0

/-- A runtime for closed examples. It lower-cases ASCII letters, converts a
string of decimal digits to its value and any other string or object to
`NaN`, and formats nothing; the examples use it on such inputs only. -/
def asciiRuntime : Runtime where
  toNumberObj := fun v => match v with
    | .str s => if s.data.all Char.isDigit then .ok (.fin (digitsValue s.data)) else .ok .nan
    | _ => .ok .nan
  toStringVal := fun _ => .ok ""
  toLowerCase := fun s => String.mk (s.data.map Char.toLower)
  join := fun _ _ => .ok ""
  includesOther := fun _ _ => .error "includes is not a function"
  strAt := fun s i => match s.data.get? i with
    | some c => .str (String.mk [c])
    | none => .undefined
  encodeURIComponent := fun _ => .ok ""

/-- JavaScript truthiness (`ToBoolean`). -/
def truthy : JsVal → Bool
  | .undefined => false
  | .null => false
  | .bool b => b
  | .num (.fin q) => decide (q ≠ 0)
  | .num .nan => false
  | .num _ => true
  | .str s => decide (s ≠ "")
  | .arr _ => true
  | .obj _ => true

/-- `a || b`. -/
def orElse (a b : JsVal) : JsVal := if truthy a then a else b

/-- `Array.isArray`. -/
def isArray : JsVal → Bool
  | .arr _ => true
  | _ => false

/-- First own property with the given key. -/
def lookupField : List (String × JsVal) → String → JsVal
  | [], _ => .undefined
  | (k, v) :: rest, key => if k = key then v else lookupField rest key

/-- The value of `v.name` for a receiver other than `null` and `undefined`,
for the names the script reads (data properties and `length`). -/
def field (v : JsVal) (name : String) : JsVal :=
  match v with
  | .obj fs => lookupField fs name
  | .arr xs => if name = "length" then .num (.fin xs.length) else .undefined
  | .str s => if name = "length" then .num (.fin s.utf16Length) else .undefined
  | _ => .undefined

/-- Whether the value is `null` or `undefined`. -/
def nullish : JsVal → Bool
  | .undefined => true
  | .null => true
  | _ => false

/-- The property read `v.name`. Reading a property of `null` or `undefined`
throws a `TypeError`. -/
def getProp (v : JsVal) (name : String) : Except String JsVal :=
  if nullish v then .error ("Cannot read properties of null or undefined (reading " ++ name ++ ")")
  else .ok (field v name)

/-- The indexed read `v[i]`. -/
def getIndex (rt : Runtime) (v : JsVal) (i : Nat) : Except String JsVal :=
  match v with
  | .undefined => .error "Cannot read properties of undefined (reading index)"
  | .null => .error "Cannot read properties of null (reading index)"
  | .arr xs => .ok (xs.getD i .undefined)
  | .obj fs => .ok (lookupField fs (toString i))
  | .str s => .ok (rt.strAt s i)
  | _ => .ok .undefined

/-- `Number(v)`. -/
def toNumber (rt : Runtime) : JsVal → Except String JsNum
  | .undefined => .ok .nan
  | .null => .ok (.fin 0)
  | .bool b => .ok (.fin (if b then 1 else 0))
  | .num n => .ok n
  | v => rt.toNumberObj v

/-- `Number.isFinite` on a number. -/
def JsNum.isFinite : JsNum → Bool
  | .fin _ => true
  | _ => false

/-- `Number.isInteger` on a number. -/
def JsNum.isInteger : JsNum → Bool
  | .fin q => decide (q.den = 1)
  | _ => false

/-- `a <= b` on numbers. -/
def JsNum.le : JsNum → JsNum → Bool
  | .nan, _ => false
  | _, .nan => false
  | .negInf, _ => true
  | _, .posInf => true
  | .fin a, .fin b => decide (a ≤ b)
  | _, _ => false

/-- `a >= b` on numbers. -/
def JsNum.ge (a b : JsNum) : Bool := JsNum.le b a

/-- `Math.max(a, b)`. -/
def JsNum.max : JsNum → JsNum → JsNum
  | .nan, _ => .nan
  | _, .nan => .nan
  | .posInf, _ => .posInf
  | _, .posInf => .posInf
  | .negInf, b => b
  | a, .negInf => a
  | .fin a, .fin b => .fin (Max.max a b)

/-- `Math.min(a, b)`. -/
def JsNum.min : JsNum → JsNum → JsNum
  | .nan, _ => .nan
  | _, .nan => .nan
  | .negInf, _ => .negInf
  | _, .negInf => .negInf
  | .posInf, b => b
  | a, .posInf => a
  | .fin a, .fin b => .fin (Min.min a b)

/-- `a - 1`. -/
def JsNum.pred : JsNum → JsNum
  | .fin a => .fin (a - 1)
  | n => n

/-- `a < b` on numbers. -/
def JsNum.lt : JsNum → JsNum → Bool
  | .nan, _ => false
  | _, .nan => false
  | .fin a, .fin b => decide (a < b)
  | .negInf, .negInf => false
  | .negInf, _ => true
  | .posInf, _ => false
  | .fin _, .posInf => true
  | .fin _, .negInf => false

/-! ## Sanitizers (`src/app.js`, lines 50-57) -/

/-- `isValidLatLng(p)`. -/
def isValidLatLng (rt : Runtime) (p : JsVal) : Except String Bool :=
  match p with
  | .arr xs =>
    if xs.length < 2 then .ok false
    else
      match toNumber rt (xs.getD 0 .undefined) with
      | .error e => .error e
      | .ok lat =>
        match toNumber rt (xs.getD 1 .undefined) with
        | .error e => .error e
        | .ok lng =>
          .ok (lat.isFinite && lng.isFinite && lat.le (.fin 90) && lat.ge (.fin (-90))
            && lng.le (.fin 180) && lng.ge (.fin (-180)))
  | _ => .ok false

/-- `xs.filter(f)` for a callback that may throw: elements are visited in
order and the first exception ends the call. -/
def filterE (f : JsVal → Except String Bool) : List JsVal → Except String (List JsVal)
  | [] => .ok []
  | x :: rest =>
    match f x with
    | .error e => .error e
    | .ok keep =>
      match filterE f rest with
      | .error e => .error e
      | .ok kept => .ok (if keep then x :: kept else kept)

/-- `sanitizePoints(arr)`. -/
def sanitizePoints (rt : Runtime) (arr : JsVal) : Except String (List JsVal) :=
  match arr with
  | .arr xs => filterE (isValidLatLng rt) xs
  | _ => .ok []

/-! ## Remote data (`fetchFathomNetPoints`, lines 60-74) -/

/-- `ToString(v)`, as a template literal or `String(v)` applies it. -/
def toStr (rt : Runtime) : JsVal → Except String String
  | .str s => .ok s
  | .undefined => .ok "undefined"
  | .null => .ok "null"
  | .bool b => .ok (if b then "true" else "false")
  | v => rt.toStringVal v

/-- What the remote request does: the promise of `fetch` rejects, or a
response arrives with its `ok` flag, its status code and the outcome of
`res.json()` (a parse failure or the parsed body). Rejections carry an
`Error`, whose message is kept. -/
inductive FetchOutcome where
  | rejected (message : String)
  | response (ok : Bool) (status : Nat) (body : Except String JsVal)

/-- The object `fetchFathomNetPoints` returns, and the `data` of
`renderPanel`. -/
structure Fetched where
  hotspots : JsVal
  migrations : JsVal

/-- Lines 65-67: the parsed body of the response, or the exception raised by
a rejected request, a status outside 2xx or a body that does not parse. -/
def settle : FetchOutcome → Except String JsVal
  | .rejected m => .error m
  | .response ok code body => if !ok then .error ("HTTP " ++ toString code) else body

/-- The `try` block of `fetchFathomNetPoints`. `status` is the text of the
`srcStatus` element when the page has one; the result carries its new text. -/
def fetchBody (rt : Runtime) (status : Option String) (concept : JsVal) (net : FetchOutcome) :
    Except String (Option String × Fetched) :=
  if !truthy concept then .ok (status, ⟨.arr [], .arr []⟩)
  else do
    let shown ← (if status.isSome then toStr rt concept else .ok "")
    let status1 := status.map (fun _ => "Fetching FathomNet for " ++ shown ++ "…")
    let _ ← rt.encodeURIComponent concept
    let data ← settle net
    let h ← getProp data "hotspots"
    let len := if nullish h then JsVal.undefined else field h "length"
    let count ← (if status1.isSome then toStr rt (orElse len (.num (.fin 0))) else .ok "")
    let status2 := status1.map (fun _ => "FathomNet: " ++ count ++ " points")
    let m ← getProp data "migrations"
    .ok (status2, ⟨if isArray h then h else .arr [], if isArray m then m else .arr []⟩)

/-- `fetchFathomNetPoints(concept)`: the `try` block and its `catch`. The
`Except` result is what the `async` function settles with. -/
def fetchFathomNetPoints (rt : Runtime) (status : Option String) (concept : JsVal)
    (net : FetchOutcome) : Except String (Option String × Fetched) :=
  match fetchBody rt status concept net with
  | .ok r => .ok r
  | .error e => .ok (status.map (fun _ => "FathomNet error: " ++ e), ⟨.arr [], .arr []⟩)

/-! ## Page, map widget and module state (lines 38-47) -/

/-- The `panel` element: whether it carries the `hidden` class, and the
`__tempReveal` mark `ensureMap` leaves in its dataset. -/
structure Panel where
  hidden : Bool
  tempReveal : Bool

/-- A banner (`errBanner`, `noDataMsg`): what the script last assigned to it
(the string given to `textContent`, or the markup given to `innerHTML`, as
written, before the browser parses it) and its `hidden` class. -/
structure Banner where
  text : String
  hidden : Bool

/-- What of the global `L` the script tests for or relies on. `mapThrows` is
the exception `L.map` raises, if it does; `setLatLngs` and `clearLayers` say
whether the layers the library creates have these methods. -/
structure Leaflet where
  mapThrows : Option String
  heatLayer : Bool
  setLatLngs : Bool
  clearLayers : Bool
  polyline : Bool
  latLngBounds : Bool

/-- The viewport: `setView([lat, lng], zoom)` or
`fitBounds(L.latLngBounds(pts).pad(pad))`. -/
inductive View where
  | setView (lat lng zoom : ℚ)
  | fitBounds (pts : List JsVal) (pad : ℚ)

/-- A polyline of the route group: its points and its tooltip. -/
structure Route where
  path : List JsVal
  tooltip : JsVal

/-- The heat overlay: its point set, and whether the object has a
`setLatLngs` method. -/
structure HeatLayer where
  points : List JsVal
  setLatLngs : Bool

/-- The route group: the polylines added to it, in order, and whether the
object has a `clearLayers` method. -/
structure RouteGroup where
  routes : List Route
  clearLayers : Bool

/-- `DATA_SRC`. -/
inductive DataSrc where
  | sample
  | fathomnet
deriving DecidableEq

/-- A card of the type gallery: the three lines of its markup. -/
structure Card where
  common : String
  scientific : String
  regions : String

/-- The content of the `typeGallery` element. -/
inductive Gallery where
  | blank
  | placeholder (subject : String)
  | cards (cs : List Card)

/-- The elements the script looks up; `none` when the page lacks one. A text
element is its `textContent`, the month slider its `value`, a radio button
its `checked` flag. -/
structure Dom where
  heading : Option String
  errBanner : Option Banner
  noDataMsg : Option Banner
  typeGallery : Option Gallery
  panel : Option Panel
  monthInput : Option String
  monthLabel : Option String
  detectedLabel : Option String
  panelTitle : Option String
  panelDesc : Option String
  panelSci : Option String
  panelFamily : Option String
  panelRegions : Option String
  panelMonths : Option String
  srcSample : Option Bool
  srcFathomNet : Option Bool
  srcStatus : Option String

/-- What `renderPanel` and `ensureMap` write: the page and the module
variables `map`, `heatLayer`, `routeGroup` (`none` while `null`) and
`mapReady` (lines 42-43). `map` holds the viewport. -/
structure Screen where
  dom : Dom
  map : Option View
  heatLayer : Option HeatLayer
  routeGroup : Option RouteGroup
  mapReady : Bool

/-- The module state with the globals the script reads. `speciesData`,
`speciesName`, `leaflet` and `urlLabel` are `window.SPECIES_DATA`,
`window.SPECIES_NAME`, the global `L` (`none` when undefined) and the `label`
parameter of the page URL. `timers` are the labels whose resolution
`setTimeout` has scheduled; `resolved` records, oldest first, every label
`setDetectedLabel` took past its readiness gate. -/
structure State where
  screen : Screen
  speciesData : JsVal
  speciesName : JsVal
  leaflet : Option Leaflet
  urlLabel : Option String
  activeIndex : JsVal
  uiReady : Bool
  queuedLabel : JsVal
  activeDataSource : DataSrc
  timers : List JsVal
  resolved : List JsVal

/-- `MONTHS` (line 39). -/
def MONTHS : List String :=
  ["Jan", "Feb", "Mar", "Apr", "May", "Jun", "Jul", "Aug", "Sep", "Oct", "Nov", "Dec"]

/-- `showError(msg)`. -/
def showError (dom : Dom) (msg : String) : Dom :=
  { dom with errBanner := dom.errBanner.map (fun _ => ⟨msg, false⟩) }

/-- `clearNoData()`. -/
def clearNoData (dom : Dom) : Dom :=
  { dom with noDataMsg := dom.noDataMsg.map (fun _ => ⟨"", true⟩) }

/-- `setNoData(label)`; `String(label)` is evaluated only when the element
exists. The banner holds the markup assigned to `innerHTML`, the label
spliced in unescaped. -/
def setNoData (rt : Runtime) (dom : Dom) (label : JsVal) : Except String Dom :=
  match dom.noDataMsg with
  | none => .ok dom
  | some _ =>
    match toStr rt label with
    | .error e => .error e
    | .ok s =>
      let markup := "No data available for <span class=\"font-semibold\">" ++ s ++
        "</span> on this page. Use the nav to switch groups."
      .ok { dom with noDataMsg := some ⟨markup, false⟩ }

/-- The catalog: `window.SPECIES_DATA.types` when it is an array, else `[]`
(lines 115, 140, 213). -/
def catalog (speciesData : JsVal) : List JsVal :=
  if truthy speciesData then
    match field speciesData "types" with
    | .arr xs => xs
    | _ => []
  else []

/-! ## Map initialisation (`ensureMap`, lines 77-108) -/

/-- `ensureMap()`: the new screen and the returned flag. -/
def ensureMap (leaflet : Option Leaflet) (s : Screen) : Screen × Bool :=
  if s.mapReady then (s, true)
  else
    match leaflet with
    | none =>
      let msg := "Map library failed to load. Check network/CSP. Map will be disabled."
      ({ s with dom := showError s.dom msg }, false)
    | some lib =>
      let revealed : Option Panel := s.dom.panel.map
        (fun p => if p.hidden then ⟨false, true⟩ else p)
      let dom1 := { s.dom with panel := revealed }
      match lib.mapThrows with
      | some e =>
        ({ s with dom := showError dom1 ("Map init error: " ++ e), mapReady := false }, false)
      | none =>
        let dom2 := if lib.heatLayer then dom1
          else showError dom1 "Heatmap plugin not available; density layer disabled."
        let restored : Option Panel := dom2.panel.map
          (fun p => if p.tempReveal then ⟨true, false⟩ else p)
        ({ dom := { dom2 with panel := restored },
           map := some (.setView 20 0 2),
           heatLayer := if lib.heatLayer then some ⟨[], lib.setLatLngs⟩ else s.heatLayer,
           routeGroup := some ⟨[], lib.clearLayers⟩,
           mapReady := true }, true)

/-! ## Rendering (`renderPanel`, lines 135-198) -/

/-- The index at which `renderPanel` reads the catalog (line 141): the
active index when `Number.isInteger(activeIndex) && activeIndex >= 0 &&
activeIndex < types.length`, else none. -/
def activeSlot (types : List JsVal) (activeIndex : JsVal) : Option Nat :=
  match activeIndex with
  | .num n =>
    if n.isInteger && n.ge (.fin 0) && n.lt (.fin types.length) then
      match n with
      | .fin q => some q.num.toNat
      | _ => none
    else none
  | _ => none

/-- The record `t` of line 141: `types[activeIndex]` at a valid index, else
`null`. -/
def activeType (types : List JsVal) (activeIndex : JsVal) : JsVal :=
  match activeSlot types activeIndex with
  | some i => types.getD i .undefined
  | none => .null

/-- The string an assignment to `textContent` stores. -/
def textOf (rt : Runtime) : JsVal → Except String String
  | .null => .ok ""
  | .undefined => .ok ""
  | v => toStr rt v

/-- One guarded assignment `if (el) el.textContent = rhs`: the right-hand
side is evaluated only when the element exists. -/
def assignText (rt : Runtime) (el : Option String) (rhs : Except String JsVal) :
    Except String (Option String) :=
  match el with
  | none => .ok none
  | some _ =>
    match rhs with
    | .error e => .error e
    | .ok v =>
      match textOf rt v with
      | .error e => .error e
      | .ok text => .ok (some text)

/-- `Array.isArray(v) ? v.join(sep) : '—'` (lines 157-158). -/
def joinedOrDash (rt : Runtime) (v : JsVal) (sep : String) : Except String JsVal :=
  match v with
  | .arr xs =>
    match rt.join xs sep with
    | .error e => .error e
    | .ok text => .ok (.str text)
  | _ => .ok (.str "—")

/-- Lines 147-158: the panel's text fields, filled from the truthy record
`t`. An exception ends the sequence and keeps the fields already written. -/
def presentTexts (rt : Runtime) (dom : Dom) (t : JsVal) : Dom × Option String :=
  match assignText rt dom.panelTitle (.ok (orElse (field t "common") (.str "—"))) with
  | .error e => (dom, some e)
  | .ok title =>
    let dom := { dom with panelTitle := title }
    match assignText rt dom.panelDesc (.ok (orElse (field t "info") (.str ""))) with
    | .error e => (dom, some e)
    | .ok desc =>
      let dom := { dom with panelDesc := desc }
      match assignText rt dom.panelSci (.ok (orElse (field t "scientific") (.str "—"))) with
      | .error e => (dom, some e)
      | .ok sci =>
        let dom := { dom with panelSci := sci }
        match assignText rt dom.panelFamily (.ok (orElse (field t "family") (.str "—"))) with
        | .error e => (dom, some e)
        | .ok fam =>
          let dom := { dom with panelFamily := fam }
          match assignText rt dom.panelRegions (joinedOrDash rt (field t "regions") ", ") with
          | .error e => (dom, some e)
          | .ok reg =>
            let dom := { dom with panelRegions := reg }
            match assignText rt dom.panelMonths
              (joinedOrDash rt (field t "monthsBest") " • ") with
            | .error e => (dom, some e)
            | .ok mon => ({ dom with panelMonths := mon }, none)

/-- `xs.map(f)` for a callback that may throw. -/
def mapE (f : JsVal → Except String JsVal) : List JsVal → Except String (List JsVal)
  | [] => .ok []
  | x :: rest =>
    match f x with
    | .error e => .error e
    | .ok y =>
      match mapE f rest with
      | .error e => .error e
      | .ok ys => .ok (y :: ys)

/-- The callback `h => [h[0], h[1], h[2] || 0.5]` of line 166. -/
def weighted (rt : Runtime) (h : JsVal) : Except String JsVal :=
  match getIndex rt h 0 with
  | .error e => .error e
  | .ok la =>
    match getIndex rt h 1 with
    | .error e => .error e
    | .ok ln =>
      match getIndex rt h 2 with
      | .error e => .error e
      | .ok wt => .ok (.arr [la, ln, orElse wt (.num (.fin (1 / 2)))])

/-- The callback `([la,ln,wt]) => [la,ln,wt]` of line 167, on the arrays
`sanitizePoints` returns (it returns arrays only). -/
def triple : JsVal → Except String JsVal
  | .arr xs => .ok (.arr [xs.getD 0 .undefined, xs.getD 1 .undefined, xs.getD 2 .undefined])
  | _ => .error "value is not iterable"

/-- `heatData` (lines 166-167) from `data.hotspots`. -/
def heatData (rt : Runtime) (hotspots : JsVal) : Except String (List JsVal) :=
  match (match hotspots with
         | .arr hs => mapE (weighted rt) hs
         | _ => .ok []) with
  | .error e => .error e
  | .ok raw =>
    match sanitizePoints rt (.arr raw) with
    | .error e => .error e
    | .ok kept => mapE triple kept

/-- `xs.includes(n)` on an array, for a number `n` (SameValueZero: `NaN`
equals itself, the two zeros are one value). -/
def includesNum (xs : List JsVal) (n : JsNum) : Bool :=
  xs.any (fun v => match v with
    | .num m => decide (m = n)
    | _ => false)

/-- The test `!r.months || r.months.includes(monthVal)` of line 176. -/
def monthActive (rt : Runtime) (months : JsVal) (monthVal : JsNum) : Except String Bool :=
  if !truthy months then .ok true
  else
    match months with
    | .arr xs => .ok (includesNum xs monthVal)
    | v =>
      match rt.includesOther v monthVal with
      | .error e => .error e
      | .ok b => .ok (truthy b)

/-- The body of the `forEach` callback (lines 175-181): the polyline it adds
to the route group, if any. -/
def routeOf (rt : Runtime) (hasPolyline : Bool) (monthVal : JsNum) (r : JsVal) :
    Except String (Option Route) :=
  if !truthy r || !isArray (field r "path") then .ok none
  else
    match monthActive rt (field r "months") monthVal with
    | .error e => .error e
    | .ok false => .ok none
    | .ok true =>
      match sanitizePoints rt (field r "path") with
      | .error e => .error e
      | .ok path =>
        if path.length ≠ 0 && hasPolyline then
          .ok (some ⟨path, orElse (field r "name") (.str "migration")⟩)
        else .ok none

/-- The `forEach` of line 174: the polylines added, in order, and the
exception that ended the loop, if one did. -/
def drawRoutes (rt : Runtime) (hasPolyline : Bool) (monthVal : JsNum) :
    List JsVal → List Route × Option String
  | [] => ([], none)
  | r :: rest =>
    match routeOf rt hasPolyline monthVal r with
    | .error e => ([], some e)
    | .ok drawn =>
      let (more, err) := drawRoutes rt hasPolyline monthVal rest
      (drawn.toList ++ more, err)

/-- The array `Array.isArray(t.migrations) ? t.migrations : []` of lines 174
and 186. -/
def migrationsOf (t : JsVal) : List JsVal :=
  match field t "migrations" with
  | .arr ms => ms
  | _ => []

/-- The `flatMap` of line 186 over the migrations. -/
def migPts (rt : Runtime) : List JsVal → Except String (List JsVal)
  | [] => .ok []
  | r :: rest =>
    match getProp r "path" with
    | .error e => .error e
    | .ok path =>
      match (if isArray path then sanitizePoints rt path else .ok []) with
      | .error e => .error e
      | .ok pts =>
        match migPts rt rest with
        | .error e => .error e
        | .ok more => .ok (pts ++ more)

/-- The callback `h => [h[0], h[1]]` of line 185, on an array. -/
def pairOf : JsVal → JsVal
  | .arr xs => .arr [xs.getD 0 .undefined, xs.getD 1 .undefined]
  | _ => .arr [.undefined, .undefined]

/-- `allPts` (lines 185-187): the points the viewport is fitted to. -/
def allPts (rt : Runtime) (heat : List JsVal) (t : JsVal) : Except String (List JsVal) :=
  match migPts rt (migrationsOf t) with
  | .error e => .error e
  | .ok mig => sanitizePoints rt (.arr (heat.map pairOf ++ mig))

/-- The `catch` of `renderPanel` (lines 195-197). -/
def renderFailed (s : Screen) (e : String) : Screen :=
  { s with dom := showError s.dom ("Map render error: " ++ e) }

/-- Lines 166-194, the `try` block of `renderPanel` after `data` is known:
heat points, routes, viewport. Each step keeps what the earlier ones wrote;
an exception goes to the `catch`. The deferred `invalidateSize` of line 194
changes nothing that is recorded. -/
def renderMap (rt : Runtime) (leaflet : Option Leaflet) (monthVal : JsNum) (t : JsVal)
    (data : Fetched) (s : Screen) : Screen :=
  match heatData rt data.hotspots with
  | .error e => renderFailed s e
  | .ok heat =>
    let layer : Option HeatLayer := s.heatLayer.map
      (fun l => if l.setLatLngs then { l with points := heat } else l)
    let s1 : Screen := { s with heatLayer := layer }
    let drawn : Option (List Route × Option String) :=
      match s1.routeGroup, leaflet with
      | some g, some lib =>
        if g.clearLayers then some (drawRoutes rt lib.polyline monthVal (migrationsOf t))
        else none
      | _, _ => none
    let s2 : Screen :=
      match drawn with
      | some (routes, _) =>
        { s1 with routeGroup := s1.routeGroup.map (fun g => { g with routes := routes }) }
      | none => s1
    match drawn with
    | some (_, some e) => renderFailed s2 e
    | _ =>
      match allPts rt heat t with
      | .error e => renderFailed s2 e
      | .ok pts =>
        let canFit : Bool :=
          match leaflet with
          | some lib => lib.latLngBounds
          | none => false
        match s2.map with
        | none => renderFailed s2 "Cannot read properties of null"
        | some _ =>
          let view : View :=
            if pts.length ≠ 0 && canFit then .fitBounds pts (1 / 5) else .setView 20 0 2
          { s2 with map := some view }

/-- Lines 163-164: `data`, with the status text the remote branch leaves.
`net` is the outcome of the remote request, should one be made. -/
def selectData (rt : Runtime) (net : FetchOutcome) (source : DataSrc) (status : Option String)
    (t : JsVal) : Except String (Option String × Fetched) :=
  if source = .fathomnet && truthy (field t "fathomnetConcept") then
    fetchFathomNetPoints rt status (field t "fathomnetConcept") net
  else
    .ok (status, ⟨orElse (field t "hotspots") (.arr []), orElse (field t "migrations") (.arr [])⟩)

/-- `renderPanel()` on what it writes. The function is `async`: an exception
outside its `try` block rejects the returned promise and leaves the screen as
it is at that point. The continuation after `await` is run at once, with the
outcome `net` of the request. -/
def renderScreen (rt : Runtime) (net : FetchOutcome) (speciesData : JsVal)
    (leaflet : Option Leaflet) (activeIndex : JsVal) (source : DataSrc) (s : Screen) : Screen :=
  match s.dom.panel, s.dom.monthInput with
  | some panel, some value =>
    let t := activeType (catalog speciesData) activeIndex
    if !truthy t then { s with dom := { s.dom with panel := some { panel with hidden := true } } }
    else
      let dom1 := { s.dom with panel := some { panel with hidden := false } }
      match toNumber rt (orElse (.str value) (.num (.fin 1))) with
      | .error _ => { s with dom := dom1 }
      | .ok monthVal =>
        match presentTexts rt dom1 t with
        | (dom2, some _) => { s with dom := dom2 }
        | (dom2, none) =>
          match ensureMap leaflet { s with dom := dom2 } with
          | (s3, false) => s3
          | (s3, true) =>
            match selectData rt net source s3.dom.srcStatus t with
            | .error e => renderFailed s3 e
            | .ok (status, data) =>
              renderMap rt leaflet monthVal t data
                { s3 with dom := { s3.dom with srcStatus := status } }
  | _, _ => s

/-- `renderPanel()`. -/
def renderPanel (rt : Runtime) (net : FetchOutcome) (s : State) : State :=
  let screen :=
    renderScreen rt net s.speciesData s.leaflet s.activeIndex s.activeDataSource s.screen
  { s with screen := screen }

/-! ## Month indicator (`setMonthLabel`, lines 200-204) -/

/-- `MONTHS[i]` for a number `i`: an element at an integer index in range,
else `undefined`. -/
def monthAt (i : JsNum) : JsVal :=
  match i with
  | .fin q =>
    if q.den = 1 ∧ 0 ≤ q then
      match MONTHS.get? q.num.toNat with
      | some m => .str m
      | none => .undefined
    else .undefined
  | _ => .undefined

/-- `setMonthLabel(val)`. -/
def setMonthLabel (rt : Runtime) (dom : Dom) (val : JsVal) : Except String Dom :=
  match toNumber rt (orElse val (.num (.fin 1))) with
  | .error e => .error e
  | .ok n =>
    let i := (JsNum.min (JsNum.max (.fin 1) n) (.fin 12)).pred
    match assignText rt dom.monthLabel (.ok (monthAt i)) with
    | .error e => .error e
    | .ok text => .ok { dom with monthLabel := text }

/-! ## Label resolution (`window.setDetectedLabel`, lines 207-227) -/

/-- The `findIndex` callback of line 214. `String(label || '')` is evaluated
only for a truthy entry whose `common` is a string. -/
def matchesLabel (rt : Runtime) (label : JsVal) (t : JsVal) : Except String Bool :=
  if !truthy t then .ok false
  else
    match field t "common" with
    | .str c =>
      match toStr rt (orElse label (.str "")) with
      | .error e => .error e
      | .ok l => .ok (decide (rt.toLowerCase c = rt.toLowerCase l))
    | _ => .ok false

/-- `xs.findIndex(f)` from position `i` on, for a callback that may throw:
the first position whose element passes, `none` for `-1`. -/
def findIndexFrom (f : JsVal → Except String Bool) (i : Nat) :
    List JsVal → Except String (Option Nat)
  | [] => .ok none
  | x :: rest =>
    match f x with
    | .error e => .error e
    | .ok true => .ok (some i)
    | .ok false => findIndexFrom f (i + 1) rest

/-- Hiding the panel (`panel.classList.add('hidden')`, when it exists). -/
def hidePanel (dom : Dom) : Dom :=
  { dom with panel := dom.panel.map (fun p => { p with hidden := true }) }

/-- Lines 210-223, what `setDetectedLabel` does once the UI is ready, with the
`catch` of lines 224-226. -/
def resolveLabel (rt : Runtime) (net : FetchOutcome) (s : State) (label : JsVal) : State :=
  let failed (s : State) (e : String) : State :=
    { s with screen := { s.screen with
        dom := showError s.screen.dom ("setDetectedLabel error: " ++ e) } }
  match assignText rt s.screen.dom.detectedLabel (.ok (orElse label (.str "—"))) with
  | .error e => failed s e
  | .ok banner =>
    let dom1 := clearNoData { s.screen.dom with detectedLabel := banner }
    let s1 : State := { s with screen := { s.screen with dom := dom1 } }
    match findIndexFrom (matchesLabel rt label) 0 (catalog s.speciesData) with
    | .error e => failed s1 e
    | .ok (some idx) => renderPanel rt net { s1 with activeIndex := .num (.fin idx) }
    | .ok none =>
      match setNoData rt dom1 label with
      | .error e => failed s1 e
      | .ok dom2 =>
        { s1 with screen := { s1.screen with dom := hidePanel dom2 }, activeIndex := .null }

/-- `window.setDetectedLabel(label)`. -/
def setDetectedLabel (rt : Runtime) (net : FetchOutcome) (s : State) (label : JsVal) : State :=
  if !s.uiReady then { s with queuedLabel := label }
  else resolveLabel rt net { s with resolved := s.resolved ++ [label] } label

/-! ## Gallery, data-source toggle and bootstrap (lines 111-133, 230-283) -/

/-- The markup of one card (lines 123-129); the template converts the three
values to strings. -/
def cardOf (rt : Runtime) (t : JsVal) : Except String Card :=
  let sci := if truthy t && truthy (field t "scientific") then field t "scientific" else .str ""
  match (match (if truthy t then field t "regions" else JsVal.undefined) with
         | .arr rs => rt.join rs ", "
         | _ => .ok "") with
  | .error e => .error e
  | .ok regs =>
    let common := if truthy t && truthy (field t "common") then field t "common" else .str "—"
    match toStr rt common with
    | .error e => .error e
    | .ok c =>
      match toStr rt sci with
      | .error e => .error e
      | .ok sc => .ok ⟨c, sc, regs⟩

/-- The `forEach` of line 120: the cards appended, and the exception that
ended the loop, if one did. -/
def cardsOf (rt : Runtime) : List JsVal → List Card × Option String
  | [] => ([], none)
  | t :: rest =>
    match cardOf rt t with
    | .error e => ([], some e)
    | .ok card =>
      let (more, err) := cardsOf rt rest
      (card :: more, err)

/-- `buildTypeGallery()`: the page, and the exception it throws, if any. -/
def buildTypeGallery (rt : Runtime) (speciesData speciesName : JsVal) (dom : Dom) :
    Dom × Option String :=
  match dom.typeGallery with
  | none => (dom, none)
  | some _ =>
    let types := catalog speciesData
    if types.length = 0 then
      match toStr rt (orElse speciesName (.str "—")) with
      | .error e => ({ dom with typeGallery := some .blank }, some e)
      | .ok subject => ({ dom with typeGallery := some (.placeholder subject) }, none)
    else
      let (cs, err) := cardsOf rt types
      ({ dom with typeGallery := some (.cards cs) }, err)

/-- The `onclick` handler of card `i` (line 130). -/
def cardClick (rt : Runtime) (net : FetchOutcome) (s : State) (i : Nat) : State :=
  renderPanel rt net
    { s with activeIndex := .num (.fin i),
             screen := { s.screen with dom := clearNoData s.screen.dom } }

/-- The handler `set` of `wireDataSourceToggle` (lines 235-239), for the
`checked` flag of the remote radio button. -/
def setDataSource (rt : Runtime) (net : FetchOutcome) (s : State) (fathomChecked : Bool) :
    State :=
  let text := if fathomChecked then "Using FathomNet (requires backend /api/fathomnet)"
    else "Using bundled sample data"
  let dom1 := { s.screen.dom with srcStatus := s.screen.dom.srcStatus.map (fun _ => text) }
  let s1 : State :=
    { s with activeDataSource := if fathomChecked then .fathomnet else .sample,
             screen := { s.screen with dom := dom1 } }
  if !nullish s1.activeIndex then renderPanel rt net s1 else s1

/-- `wireDataSourceToggle()`: the listeners are the handler above; the call
itself runs it once. -/
def wireDataSourceToggle (rt : Runtime) (net : FetchOutcome) (s : State) : State :=
  match s.screen.dom.srcSample, s.screen.dom.srcFathomNet with
  | some _, some fathomChecked => setDataSource rt net s fathomChecked
  | _, _ => s

/-- Lines 248-270 of `__initUI`: everything before the UI is marked ready.
The result is the state, and the exception that ended the steps, if any. -/
def initSetup (rt : Runtime) (net : FetchOutcome) (s : State) : State × Option String :=
  let withDom (s : State) (dom : Dom) : State := { s with screen := { s.screen with dom := dom } }
  match (if truthy s.speciesName then
           assignText rt s.screen.dom.heading
             (match toStr rt s.speciesName with
              | .error e => .error e
              | .ok name => .ok (.str ((s.screen.dom.heading.getD "") ++ " — " ++ name)))
         else .ok s.screen.dom.heading) with
  | .error e => (s, some e)
  | .ok heading =>
    let s1 := withDom s { s.screen.dom with heading := heading }
    match buildTypeGallery rt s1.speciesData s1.speciesName s1.screen.dom with
    | (dom2, some e) => (withDom s1 dom2, some e)
    | (dom2, none) =>
      let first : JsVal :=
        match dom2.monthInput with
        | some value => .str value
        | none => .num (.fin 1)
      match setMonthLabel rt dom2 first with
      | .error e => (withDom s1 dom2, some e)
      | .ok dom3 =>
        let s4 := wireDataSourceToggle rt net (withDom s1 dom3)
        let scheduled : List JsVal :=
          match s4.urlLabel with
          | some q => if q ≠ "" then [.str q] else []
          | none => []
        ({ s4 with timers := s4.timers ++ scheduled }, none)

/-- The self-tests of lines 276-279: each reads `textContent` of the
`monthLabel` element, which throws when the page has none. -/
def selfTests (rt : Runtime) (dom : Dom) : Dom × Option String :=
  let check (dom : Dom) : Option String :=
    if dom.monthLabel.isSome then none else some "Cannot read properties of null"
  match setMonthLabel rt dom (.num (.fin 1)) with
  | .error e => (dom, some e)
  | .ok dom1 =>
    match check dom1 with
    | some e => (dom1, some e)
    | none =>
      match setMonthLabel rt dom1 (.num (.fin 12)) with
      | .error e => (dom1, some e)
      | .ok dom2 => (dom2, check dom2)

/-- `__initUI()`. -/
def initUI (rt : Runtime) (net : FetchOutcome) (s : State) : State :=
  let failed (s : State) (e : String) : State :=
    { s with screen := { s.screen with dom := showError s.screen.dom ("Init error: " ++ e) } }
  match initSetup rt net s with
  | (s1, some e) => failed s1 e
  | (s1, none) =>
    let s2 : State := { s1 with uiReady := true }
    let s3 : State :=
      if truthy s2.queuedLabel then
        setDetectedLabel rt net { s2 with queuedLabel := .null } s2.queuedLabel
      else s2
    match selfTests rt s3.screen.dom with
    | (dom, some e) => failed { s3 with screen := { s3.screen with dom := dom } } e
    | (dom, none) => { s3 with screen := { s3.screen with dom := dom } }

/-! ## Predicates used in the statements -/

/-- Whether `Number` converts the value without throwing. -/
def converts (rt : Runtime) (v : JsVal) : Bool :=
  match toNumber rt v with
  | .ok _ => true
  | .error _ => false

/-- Whether `isValidLatLng(p)` converts without throwing: `p` is not an array
of two or more fields, or `Number` converts its first two fields. -/
def convertible (rt : Runtime) (p : JsVal) : Bool :=
  match p with
  | .arr xs => decide (xs.length < 2) ||
      (converts rt (xs.getD 0 .undefined) && converts rt (xs.getD 1 .undefined))
  | _ => true

/-- A number is finite and within the closed interval from `lo` to `hi`. -/
def JsNum.within (lo hi : ℚ) : JsNum → Bool
  | .fin q => decide (lo ≤ q ∧ q ≤ hi)
  | _ => false

/-- The entry is an array of two or more fields whose first two fields
`Number` converts to a finite latitude in [-90, 90] and a finite longitude in
[-180, 180]. -/
def validCoerced (rt : Runtime) (p : JsVal) : Bool :=
  match p with
  | .arr xs =>
    decide (2 ≤ xs.length) &&
      (match toNumber rt (xs.getD 0 .undefined), toNumber rt (xs.getD 1 .undefined) with
       | .ok lat, .ok lng => lat.within (-90) 90 && lng.within (-180) 180
       | _, _ => false)
  | _ => false

/-- The stated validity of an entry: an array with at least two numeric
fields, the first two finite, latitude in [-90, 90], longitude in
[-180, 180]. -/
def validNumeric (p : JsVal) : Bool :=
  match p with
  | .arr (.num lat :: .num lng :: _) => lat.within (-90) 90 && lng.within (-180) 180
  | _ => false

/-- The entry has a string `common` name equal to the label once both are
lower-cased: the equality "ignoring letter case" of the resolver. -/
def namedIgnoringCase (rt : Runtime) (label : String) (t : JsVal) : Bool :=
  match field t "common" with
  | .str c => decide (rt.toLowerCase c = rt.toLowerCase label)
  | _ => false

/-- The first position from `i` on whose element passes `g`. -/
def firstFrom (g : JsVal → Bool) (i : Nat) : List JsVal → Option Nat
  | [] => none
  | x :: rest => if g x then some i else firstFrom g (i + 1) rest

/-- The active index a label resolution leaves: the position found, as a
number, or `null`. -/
def indexValue : Option Nat → JsVal
  | some i => .num (.fin i)
  | none => .null

/-- Two states agree on what label handling reads and writes besides the
screen and the active index: the readiness flag, the queued label, the
timers, the log of resolutions and the URL label. -/
def SameControl (a b : State) : Prop :=
  a.uiReady = b.uiReady ∧ a.queuedLabel = b.queuedLabel ∧ a.timers = b.timers
    ∧ a.resolved = b.resolved ∧ a.urlLabel = b.urlLabel

/-- The timers `__initUI` adds for the URL label (line 269). -/
def urlTimers (urlLabel : Option String) : List JsVal :=
  match urlLabel with
  | some q => if q ≠ "" then [.str q] else []
  | none => []

/-- The months of a migration allow month `m`: the `months` field is absent,
or it is an array that contains the number `m`. -/
def inSeason (months : JsVal) (m : ℤ) : Bool :=
  match months with
  | .undefined => true
  | .arr ms => includesNum ms (.fin m)
  | _ => false

/-- The sanitized path of a migration, empty when there is none. -/
def sanitizedPath (rt : Runtime) (r : JsVal) : List JsVal :=
  match sanitizePoints rt (field r "path") with
  | .ok path => path
  | .error _ => []

/-- A migration entry `renderPanel` handles without an exception: its path
sanitizes (a missing or non-array path counts as empty), and its `months` is
absent or an array. -/
def Regular (rt : Runtime) (r : JsVal) : Prop :=
  (∃ path, sanitizePoints rt (field r "path") = .ok path)
  ∧ (field r "months" = .undefined ∨ ∃ ms, field r "months" = .arr ms)

/-- The polyline `renderPanel` is to draw for a migration in month `m`: its
sanitized path, when not empty, under its name (or the default label) when
its months allow `m`; none otherwise. -/
def seasonRoute (rt : Runtime) (m : ℤ) (r : JsVal) : Option Route :=
  if inSeason (field r "months") m && decide ((sanitizedPath rt r).length ≠ 0) then
    some ⟨sanitizedPath rt r, orElse (field r "name") (.str "migration")⟩
  else none

/-! ## Sample data for closed examples -/

/-- A page with every element the script looks up: panel hidden, slider at
`month`, local data selected. -/
def samplePage (month : String) : Dom where
  heading := some "Marine Species"
  errBanner := some ⟨"", true⟩
  noDataMsg := some ⟨"", true⟩
  typeGallery := some .blank
  panel := some ⟨true, false⟩
  monthInput := some month
  monthLabel := some ""
  detectedLabel := some "—"
  panelTitle := some ""
  panelDesc := some ""
  panelSci := some ""
  panelFamily := some ""
  panelRegions := some ""
  panelMonths := some ""
  srcSample := some true
  srcFathomNet := some false
  srcStatus := some ""

/-- A mapping library with every capability the script tests for. -/
def fullLeaflet : Leaflet := ⟨none, true, true, true, true, true⟩

/-- The module state as lines 42-47 initialise it, on the sample page, before
`__initUI` has run. -/
def initialState (speciesData : JsVal) (month : String) : State where
  screen := ⟨samplePage month, none, none, none, false⟩
  speciesData := speciesData
  speciesName := .str "Whales"
  leaflet := some fullLeaflet
  urlLabel := none
  activeIndex := .null
  uiReady := false
  queuedLabel := .null
  activeDataSource := .sample
  timers := []
  resolved := []

/-- A state after bootstrap with the given active index and data source. -/
def readyState (speciesData : JsVal) (month : String) (activeIndex : JsVal)
    (source : DataSrc) : State :=
  { initialState speciesData month with
    uiReady := true, activeIndex := activeIndex, activeDataSource := source }

/-- The screen once `ensureMap` has succeeded on the sample page. -/
def readyScreen (month : String) : Screen :=
  ⟨samplePage month, some (.setView 20 0 2), some ⟨[], true⟩, some ⟨[], true⟩, true⟩

/-- The state with the panel shown. -/
def revealed (s : State) : State :=
  { s with screen := { s.screen with
      dom := { s.screen.dom with panel := some ⟨false, false⟩ } } }

/-- A point `[lat, lng]`. -/
def pt (lat lng : ℤ) : JsVal := .arr [.num (.fin lat), .num (.fin lng)]

/-- A catalog of one species, with its hotspots and migrations. -/
def catalogOf (common : String) (hotspots migrations : List JsVal) : JsVal :=
  .obj [("types", .arr [.obj [("common", .str common), ("fathomnetConcept", .str common),
    ("hotspots", .arr hotspots), ("migrations", .arr migrations)]])]

/-- Two migrations: one for months 3, 4 and 5, one without `months`. -/
def seasonalMigrations : List JsVal :=
  [.obj [("name", .str "spring run"), ("path", .arr [pt 10 10, pt 20 20]),
         ("months", .arr [.num (.fin 3), .num (.fin 4), .num (.fin 5)])],
   .obj [("path", .arr [pt 0 0, pt 5 5])]]

/-- The sample page with the first species of a catalog active, in sample
mode, before the map exists. -/
def viewing (hotspots migrations : List JsVal) (month : String) : State :=
  readyState (catalogOf "Blue Whale" hotspots migrations) month (.num (.fin 0)) .sample

/-! # Properties -/

/-! ## Sanitizer (C1) -/

theorem within_iff (lo hi : ℚ) (n : JsNum) :
    n.within lo hi = (n.isFinite && n.le (.fin hi) && n.ge (.fin lo)) := by
  cases n <;> simp [JsNum.within, JsNum.isFinite, JsNum.le, JsNum.ge, Bool.and_comm]

theorem converts_ok (rt : Runtime) (v : JsVal) (h : converts rt v = true) :
    ∃ n, toNumber rt v = .ok n := by
  unfold converts at h
  cases e : toNumber rt v with
  | ok n => exact ⟨n, rfl⟩
  | error m => rw [e] at h; exact Bool.noConfusion h

theorem isValidLatLng_of_convertible (rt : Runtime) (p : JsVal)
    (h : convertible rt p = true) : isValidLatLng rt p = .ok (validCoerced rt p) := by
  cases p with
  | arr xs =>
    simp only [convertible, Bool.or_eq_true, decide_eq_true_eq, Bool.and_eq_true] at h
    unfold isValidLatLng validCoerced
    by_cases hlen : xs.length < 2
    · simp [hlen, Nat.not_le.mpr hlen]
    · rcases h with h | ⟨h0, h1⟩
      · exact absurd h hlen
      · obtain ⟨lat, e0⟩ := converts_ok rt _ h0
        obtain ⟨lng, e1⟩ := converts_ok rt _ h1
        simp only [hlen, if_false, e0, e1, within_iff, Nat.le_of_not_lt hlen, decide_True,
          Bool.true_and]
        cases lat.isFinite <;> cases lng.isFinite <;> simp [Bool.and_assoc]
  | _ => rfl

theorem filterE_of_total (f : JsVal → Except String Bool) (g : JsVal → Bool) (xs : List JsVal)
    (h : ∀ p ∈ xs, f p = .ok (g p)) : filterE f xs = .ok (xs.filter g) := by
  induction xs with
  | nil => rfl
  | cons x rest ih =>
    have hx := h x (List.mem_cons_self x rest)
    have hr := ih (fun p hp => h p (List.mem_cons_of_mem x hp))
    simp only [filterE, hx, hr, List.filter_cons]

/-- C1 (as amended). For every candidate point list whose entries `Number`
converts without an exception, `sanitizePoints` returns the entries, in their
order, that are arrays of two or more fields whose first two fields `Number`
converts to a finite latitude in [-90, 90] and a finite longitude in
[-180, 180]. The result is a sublist of the input; every surviving entry
satisfies the range and finiteness conditions after conversion; every other
entry (NaN, out of range, fewer than two fields, not an array) is dropped;
every entry with two valid numeric fields is kept; and an argument that is
not an array gives the empty list. The fields need not be numbers: `null`,
booleans and numeric strings are accepted through the conversion. -/
theorem sanitizePoints_keeps_coerced (rt : Runtime) (xs : List JsVal)
    (h : ∀ p ∈ xs, convertible rt p = true) :
    sanitizePoints rt (.arr xs) = .ok (xs.filter (validCoerced rt))
    ∧ (xs.filter (validCoerced rt)).Sublist xs
    ∧ (∀ p ∈ xs.filter (validCoerced rt), validCoerced rt p = true)
    ∧ (∀ p ∈ xs, validCoerced rt p = false → p ∉ xs.filter (validCoerced rt))
    ∧ (∀ p ∈ xs, validNumeric p = true → p ∈ xs.filter (validCoerced rt))
    ∧ (∀ v, isArray v = false → sanitizePoints rt v = .ok []) := by
  refine ⟨?_, List.filter_sublist xs, ?_, ?_, ?_, ?_⟩
  · exact filterE_of_total _ _ xs (fun p hp => isValidLatLng_of_convertible rt p (h p hp))
  · intro p hp
    exact (List.mem_filter.mp hp).2
  · intro p _ hv hmem
    rw [(List.mem_filter.mp hmem).2] at hv
    exact Bool.noConfusion hv
  · intro p hp hv
    refine List.mem_filter.mpr ⟨hp, ?_⟩
    unfold validNumeric at hv
    split at hv
    · simpa [validCoerced, toNumber] using hv
    · exact Bool.noConfusion hv
  · intro v hv
    cases v <;> first | rfl | exact Bool.noConfusion hv

/-- C1, an instance: of six candidate entries, the numeric pair and the pair
`[null, true]` (converted to 0 and 1) survive, in order; the out-of-range
pair, the `NaN` pair, the one-field array and the string are dropped. -/
theorem sanitizePoints_keeps_coerced_witness :
    (∀ p ∈ [JsVal.arr [.num (.fin 10), .num (.fin 20)], .arr [.null, .bool true],
        .arr [.num (.fin 100), .num (.fin 0)], .arr [.num .nan, .num (.fin 0)],
        .arr [.num (.fin 1)], .str "x"], convertible asciiRuntime p = true)
    ∧ sanitizePoints asciiRuntime (.arr [.arr [.num (.fin 10), .num (.fin 20)],
        .arr [.null, .bool true], .arr [.num (.fin 100), .num (.fin 0)],
        .arr [.num .nan, .num (.fin 0)], .arr [.num (.fin 1)], .str "x"])
      = .ok [.arr [.num (.fin 10), .num (.fin 20)], .arr [.null, .bool true]] :=
  ⟨by decide,
   (sanitizePoints_keeps_coerced asciiRuntime _ (by decide)).1.trans rfl⟩

/-- C1 as stated fails: the entry `[null, null]` has no numeric field, yet
`sanitizePoints` keeps it, because `Number(null)` is 0. -/
theorem sanitizePoints_keeps_null_pair :
    (∀ rt : Runtime, sanitizePoints rt (.arr [.arr [.null, .null]]) = .ok [.arr [.null, .null]])
    ∧ validNumeric (.arr [.null, .null]) = false :=
  ⟨fun _ => rfl, rfl⟩

/-! ## Month indicator (C4) -/

theorem orElse_int (v : ℤ) :
    orElse (.num (.fin v)) (.num (.fin 1)) = .num (.fin ((if v = 0 then 1 else v : ℤ) : ℚ)) := by
  unfold orElse truthy
  by_cases h : v = 0
  · subst h; simp
  · have : (v : ℚ) ≠ 0 := by exact_mod_cast h
    simp [h, this]

theorem clamp_int (v : ℤ) :
    (JsNum.min (JsNum.max (.fin 1) (.fin ((if v = 0 then 1 else v : ℤ) : ℚ))) (.fin 12)).pred
      = .fin (((min (max v 1) 12 - 1 : ℤ)) : ℚ) := by
  simp only [JsNum.max, JsNum.min, JsNum.pred]
  congr 1
  by_cases h : v = 0
  · subst h; norm_num
  · simp only [h, if_false]
    push_cast
    rw [max_comm]

theorem monthAt_int (k : ℤ) (h1 : 1 ≤ k) (h12 : k ≤ 12) :
    ∃ name, MONTHS.get? (k - 1).toNat = some name ∧
      monthAt (.fin ((k - 1 : ℤ) : ℚ)) = .str name := by
  have hden : ((k - 1 : ℤ) : ℚ).den = 1 := Rat.intCast_den _
  have hnum : ((k - 1 : ℤ) : ℚ).num = k - 1 := Rat.intCast_num _
  have hpos : (0 : ℚ) ≤ ((k - 1 : ℤ) : ℚ) := by exact_mod_cast (by omega : (0 : ℤ) ≤ k - 1)
  unfold monthAt
  simp only [hden, hnum, hpos, and_self, if_true]
  interval_cases k <;> exact ⟨_, rfl, rfl⟩

theorem setMonthLabel_int (rt : Runtime) (dom : Dom) (v : ℤ) :
    ∃ name, MONTHS.get? (min (max v 1) 12 - 1).toNat = some name ∧
      setMonthLabel rt dom (.num (.fin v))
        = .ok { dom with monthLabel := dom.monthLabel.map (fun _ => name) } := by
  obtain ⟨name, hname, hat⟩ := monthAt_int (min (max v 1) 12) (by omega) (by omega)
  refine ⟨name, hname, ?_⟩
  unfold setMonthLabel
  rw [orElse_int]
  simp only [toNumber, clamp_int, hat]
  cases dom.monthLabel <;> rfl

/-- C4. For every integer input value `v`, `setMonthLabel(v)` returns normally
and, when the page has the month label element, sets its text to the entry of
`MONTHS` (Jan..Dec) at position `min(max(v, 1), 12) - 1`, which exists; every
value at or below 1 (so 1 and 0) gives "Jan" and every value at or above 12
(so 12 and 13) gives "Dec". Nothing else on the page changes. -/
theorem setMonthLabel_clamps (rt : Runtime) (dom : Dom) (v : ℤ) :
    (∃ name, MONTHS.get? (min (max v 1) 12 - 1).toNat = some name ∧
      setMonthLabel rt dom (.num (.fin v))
        = .ok { dom with monthLabel := dom.monthLabel.map (fun _ => name) })
    ∧ (v ≤ 1 → setMonthLabel rt dom (.num (.fin v))
        = .ok { dom with monthLabel := dom.monthLabel.map (fun _ => "Jan") })
    ∧ (12 ≤ v → setMonthLabel rt dom (.num (.fin v))
        = .ok { dom with monthLabel := dom.monthLabel.map (fun _ => "Dec") }) := by
  obtain ⟨name, hname, hset⟩ := setMonthLabel_int rt dom v
  refine ⟨⟨name, hname, hset⟩, ?_, ?_⟩
  · intro hv
    have hk : min (max v 1) 12 - 1 = 0 := by omega
    rw [hk] at hname
    have : name = "Jan" := by simpa [MONTHS] using hname.symm
    rw [hset, this]
  · intro hv
    have hk : min (max v 1) 12 - 1 = 11 := by omega
    rw [hk] at hname
    have : name = "Dec" := by simpa [MONTHS] using hname.symm
    rw [hset, this]

/-! ## Remote fetch (C6) -/

theorem bind_ok_inv {α β : Type} {x : Except String α} {f : α → Except String β} {r : β}
    (h : x >>= f = .ok r) : ∃ v, x = .ok v ∧ f v = .ok r := by
  cases x with
  | error e => cases h
  | ok v => exact ⟨v, rfl, h⟩

theorem isArray_orEmpty (v : JsVal) : isArray (if isArray v then v else .arr []) = true := by
  cases v <;> rfl

theorem fetchBody_arrays (rt : Runtime) (status : Option String) (concept : JsVal)
    (net : FetchOutcome) (st : Option String) (r : Fetched)
    (h : fetchBody rt status concept net = .ok (st, r)) :
    isArray r.hotspots = true ∧ isArray r.migrations = true := by
  unfold fetchBody at h
  split at h
  · cases h; exact ⟨rfl, rfl⟩
  · obtain ⟨shown, -, h⟩ := bind_ok_inv h
    obtain ⟨_, -, h⟩ := bind_ok_inv h
    obtain ⟨data, -, h⟩ := bind_ok_inv h
    obtain ⟨hs, -, h⟩ := bind_ok_inv h
    obtain ⟨count, -, h⟩ := bind_ok_inv h
    obtain ⟨m, -, h⟩ := bind_ok_inv h
    cases h
    exact ⟨isArray_orEmpty hs, isArray_orEmpty m⟩

theorem fetchBody_failure (rt : Runtime) (status : Option String) (concept : JsVal)
    (net : FetchOutcome) (e : String) (hfail : settle net = .error e)
    (st : Option String) (r : Fetched) (h : fetchBody rt status concept net = .ok (st, r)) :
    r.hotspots = .arr [] ∧ r.migrations = .arr [] := by
  unfold fetchBody at h
  split at h
  · cases h; exact ⟨rfl, rfl⟩
  · obtain ⟨shown, -, h⟩ := bind_ok_inv h
    obtain ⟨_, -, h⟩ := bind_ok_inv h
    obtain ⟨data, hd, h⟩ := bind_ok_inv h
    rw [hfail] at hd
    cases hd

theorem fetchBody_success (rt : Runtime) (status : Option String) (concept : JsVal)
    (code : Nat) (data : JsVal) (hc : truthy concept = true) (hd : nullish data = false)
    (henc : ∃ u, rt.encodeURIComponent concept = .ok u)
    (hshown : status.isSome = true → ∃ shown, toStr rt concept = .ok shown)
    (hcount : status.isSome = true → ∃ count, toStr rt (orElse
      (if nullish (field data "hotspots") then .undefined
       else field (field data "hotspots") "length") (.num (.fin 0))) = .ok count) :
    ∃ st, fetchBody rt status concept (.response true code (.ok data)) = .ok (st,
      ⟨if isArray (field data "hotspots") then field data "hotspots" else .arr [],
       if isArray (field data "migrations") then field data "migrations" else .arr []⟩) := by
  obtain ⟨u, hu⟩ := henc
  unfold fetchBody
  cases status with
  | none =>
    simp [hc, hu, settle, getProp, hd, bind, Except.bind]
  | some text =>
    obtain ⟨shown, hs⟩ := hshown rfl
    obtain ⟨count, hct⟩ := hcount rfl
    simp [hc, hu, settle, getProp, hd, bind, Except.bind, hs, hct]

/-- C6. For every outcome `net` of the remote request, every concept and
every page, `fetchFathomNetPoints` settles with a value, never an exception,
and the `hotspots` and `migrations` of that value are both arrays. When the
request is rejected, the response status is outside 2xx or the body does not
parse, both are empty. When a response with a 2xx status carries a parsed
body other than `null` and the status texts format, each of the two fields
is the body's field when that is an array and the empty array when it is
missing or not an array. -/
theorem fetchFathomNetPoints_never_throws (rt : Runtime) (status : Option String)
    (concept : JsVal) (net : FetchOutcome) :
    ∃ st r, fetchFathomNetPoints rt status concept net = .ok (st, r)
      ∧ isArray r.hotspots = true ∧ isArray r.migrations = true
      ∧ ((∃ m, net = .rejected m) ∨ (∃ code body, net = .response false code body)
          ∨ (∃ code e, net = .response true code (.error e))
          → r.hotspots = .arr [] ∧ r.migrations = .arr [])
      ∧ (∀ code data, net = .response true code (.ok data) → truthy concept = true →
          nullish data = false → (∃ u, rt.encodeURIComponent concept = .ok u) →
          (status.isSome = true → ∃ shown, toStr rt concept = .ok shown) →
          (status.isSome = true → ∃ count, toStr rt (orElse
            (if nullish (field data "hotspots") then .undefined
             else field (field data "hotspots") "length") (.num (.fin 0))) = .ok count) →
          r.hotspots = (if isArray (field data "hotspots") then field data "hotspots"
            else .arr [])
          ∧ r.migrations = (if isArray (field data "migrations") then field data "migrations"
            else .arr [])) := by
  unfold fetchFathomNetPoints
  cases hb : fetchBody rt status concept net with
  | error e =>
    refine ⟨_, _, rfl, rfl, rfl, fun _ => ⟨rfl, rfl⟩, ?_⟩
    intro code data hnet hc hd henc hshown hcount
    obtain ⟨st, hst⟩ := fetchBody_success rt status concept code data hc hd henc hshown hcount
    rw [hnet, hst] at hb
    cases hb
  | ok b =>
    obtain ⟨st, r⟩ := b
    obtain ⟨ha, hm⟩ := fetchBody_arrays rt status concept net st r hb
    refine ⟨st, r, rfl, ha, hm, ?_, ?_⟩
    · intro hfail
      have : ∃ e, settle net = .error e := by
        rcases hfail with ⟨m, rfl⟩ | ⟨code, body, rfl⟩ | ⟨code, e, rfl⟩
        · exact ⟨m, rfl⟩
        · exact ⟨_, rfl⟩
        · exact ⟨e, rfl⟩
      obtain ⟨e, he⟩ := this
      exact fetchBody_failure rt status concept net e he st r hb
    · intro code data hnet hc hd henc hshown hcount
      obtain ⟨st2, hst⟩ := fetchBody_success rt status concept code data hc hd henc hshown hcount
      rw [hnet, hst] at hb
      cases hb
      exact ⟨rfl, rfl⟩

/-! ## Active index validation (C10) -/

theorem activeSlot_iff (types : List JsVal) (idx : JsVal) (i : Nat) :
    activeSlot types idx = some i ↔ idx = .num (.fin i) ∧ i < types.length := by
  constructor
  · intro h
    unfold activeSlot at h
    cases idx with
    | num n =>
      cases n with
      | fin q =>
        simp only [JsNum.isInteger, JsNum.ge, JsNum.le, JsNum.lt, Bool.and_eq_true,
          decide_eq_true_eq] at h
        split at h
        · rename_i hc
          obtain ⟨⟨hden, hpos⟩, hlt⟩ := hc
          cases h
          have hq : ((q.num : ℤ) : ℚ) = q := Rat.coe_int_num_of_den_eq_one hden
          have hnum : 0 ≤ q.num := Rat.num_nonneg.mpr hpos
          have hcast : ((q.num.toNat : ℕ) : ℚ) = q := by
            rw [← hq]
            have : ((q.num.toNat : ℕ) : ℤ) = q.num := Int.toNat_of_nonneg hnum
            exact_mod_cast this
          refine ⟨by rw [hcast], ?_⟩
          rw [← hcast] at hlt
          exact_mod_cast hlt
        · cases h
      | _ => simp at h
    | _ => simp at h
  · rintro ⟨rfl, hlt⟩
    have hden : ((i : ℕ) : ℚ).den = 1 := Rat.den_natCast i
    have hnum : ((i : ℕ) : ℚ).num = i := Rat.num_natCast i
    have hpos : (0 : ℚ) ≤ (i : ℚ) := Nat.cast_nonneg i
    have hl : ((i : ℕ) : ℚ) < (types.length : ℚ) := by exact_mod_cast hlt
    simp [activeSlot, JsNum.isInteger, JsNum.ge, JsNum.le, JsNum.lt, hden, hnum, hpos, hl]

/-- C10. On a page that has the panel and the month slider, for every catalog
and every value of the active index: `renderPanel` reads the catalog at
position `i` exactly when the active index is the integer `i` and
`0 <= i < types.length`, and the record it then uses is the entry at `i`,
which exists. For every other value (none, negative, fractional, not a
number, at or beyond the current length) no entry is read, the record is
`null`, and the call only adds the `hidden` class to the panel: the rest of
the page, the map, its layers and the module state are left as they were. -/
theorem renderPanel_validates_index (rt : Runtime) (net : FetchOutcome) (s : State)
    (p : Panel) (value : String)
    (hp : s.screen.dom.panel = some p) (hm : s.screen.dom.monthInput = some value) :
    (∀ i, activeSlot (catalog s.speciesData) s.activeIndex = some i ↔
        s.activeIndex = .num (.fin i) ∧ i < (catalog s.speciesData).length)
    ∧ (∀ i, activeSlot (catalog s.speciesData) s.activeIndex = some i →
        (catalog s.speciesData).get? i
          = some (activeType (catalog s.speciesData) s.activeIndex))
    ∧ (activeSlot (catalog s.speciesData) s.activeIndex = none →
        activeType (catalog s.speciesData) s.activeIndex = .null
        ∧ renderPanel rt net s = { s with screen := { s.screen with
            dom := { s.screen.dom with panel := some { p with hidden := true } } } }) := by
  refine ⟨fun i => activeSlot_iff _ _ i, ?_, ?_⟩
  · intro i hi
    have hlt := ((activeSlot_iff _ _ i).mp hi).2
    simp only [activeType, hi]
    rw [List.getD_eq_getElem _ _ hlt, List.get?_eq_getElem?, List.getElem?_eq_getElem hlt]
  · intro hnone
    have ht : activeType (catalog s.speciesData) s.activeIndex = .null := by
      simp only [activeType, hnone]
    refine ⟨ht, ?_⟩
    simp only [renderPanel, renderScreen, hp, hm, ht, truthy]
    rfl

/-- C10, an instance: with a catalog of one entry and the stale active index
2, `renderPanel` reads no entry and hides the panel that was shown. -/
theorem renderPanel_validates_index_witness :
    (revealed (readyState (catalogOf "Blue Whale" [] []) "1" (.num (.fin 2))
        .sample)).screen.dom.panel = some ⟨false, false⟩
    ∧ (revealed (readyState (catalogOf "Blue Whale" [] []) "1" (.num (.fin 2))
        .sample)).screen.dom.monthInput = some "1"
    ∧ activeSlot (catalog (catalogOf "Blue Whale" [] [])) (.num (.fin 2)) = none
    ∧ renderPanel asciiRuntime (.rejected "offline")
        (revealed (readyState (catalogOf "Blue Whale" [] []) "1" (.num (.fin 2)) .sample))
      = readyState (catalogOf "Blue Whale" [] []) "1" (.num (.fin 2)) .sample :=
  ⟨rfl, rfl, rfl,
   ((renderPanel_validates_index asciiRuntime (.rejected "offline")
      (revealed (readyState (catalogOf "Blue Whale" [] []) "1" (.num (.fin 2)) .sample))
      ⟨false, false⟩ "1" rfl rfl).2.2 rfl).2.trans rfl⟩

/-! ## Heat weights (C9) -/

/-- C9, at a failing input. The hotspot list `[[10, 20, 0], [30, 40],
[50, 60, 2]]` is well formed and has valid coordinates; its first hotspot has
the weight 0. `heatData` gives `[[10, 20, 0.5], [30, 40, 0.5], [50, 60, 2]]`,
and that is the point set of the heat overlay after `renderPanel` on a page
showing this species: the weight 0 is replaced by 0.5 as if it were absent,
while the absent weight gets 0.5 and the weight 2 is kept. -/
theorem heat_weight_zero_replaced :
    (∀ rt : Runtime,
      heatData rt (.arr [.arr [.num (.fin 10), .num (.fin 20), .num (.fin 0)],
          .arr [.num (.fin 30), .num (.fin 40)],
          .arr [.num (.fin 50), .num (.fin 60), .num (.fin 2)]])
        = .ok [.arr [.num (.fin 10), .num (.fin 20), .num (.fin (1 / 2))],
          .arr [.num (.fin 30), .num (.fin 40), .num (.fin (1 / 2))],
          .arr [.num (.fin 50), .num (.fin 60), .num (.fin 2)]])
    ∧ (renderPanel asciiRuntime (.rejected "offline")
        (readyState (catalogOf "Blue Whale"
          [.arr [.num (.fin 10), .num (.fin 20), .num (.fin 0)],
           .arr [.num (.fin 30), .num (.fin 40)],
           .arr [.num (.fin 50), .num (.fin 60), .num (.fin 2)]] []) "1" (.num (.fin 0))
          .sample)).screen.heatLayer
        = some ⟨[.arr [.num (.fin 10), .num (.fin 20), .num (.fin (1 / 2))],
          .arr [.num (.fin 30), .num (.fin 40), .num (.fin (1 / 2))],
          .arr [.num (.fin 50), .num (.fin 60), .num (.fin 2)]], true⟩ :=
  ⟨fun _ => rfl, rfl⟩

/-! ## Viewport (C7) -/

/-- C7, at a failing input. The species has no hotspots and one migration,
active in month 3 only, with the path `[[10, 10], [20, 20]]`; the slider is at
month 1. `renderPanel` draws no route, so no point is shown, yet it fits the
viewport to the two points of the migration it did not draw instead of
resetting it to the default view. -/
theorem viewport_fits_undrawn_migration :
    (renderPanel asciiRuntime (.rejected "offline")
        (readyState (catalogOf "Blue Whale" []
          [.obj [("name", .str "spring run"), ("path", .arr [pt 10 10, pt 20 20]),
                 ("months", .arr [.num (.fin 3)])]]) "1" (.num (.fin 0)) .sample)).screen.heatLayer
        = some ⟨[], true⟩
    ∧ (renderPanel asciiRuntime (.rejected "offline")
        (readyState (catalogOf "Blue Whale" []
          [.obj [("name", .str "spring run"), ("path", .arr [pt 10 10, pt 20 20]),
                 ("months", .arr [.num (.fin 3)])]]) "1" (.num (.fin 0)) .sample)).screen.routeGroup
        = some ⟨[], true⟩
    ∧ (renderPanel asciiRuntime (.rejected "offline")
        (readyState (catalogOf "Blue Whale" []
          [.obj [("name", .str "spring run"), ("path", .arr [pt 10 10, pt 20 20]),
                 ("months", .arr [.num (.fin 3)])]]) "1" (.num (.fin 0)) .sample)).screen.map
        = some (.fitBounds [pt 10 10, pt 20 20] (1 / 5)) :=
  ⟨rfl, rfl, rfl⟩

/-! ## Data source of the routes (C8) -/

/-- C8, at a failing input. In remote mode, for a species with a lookup key
whose record embeds the route "sample route", let the remote response carry
one hotspot and the route "remote route". The data source produces the
remote pair, and `renderPanel` takes the heat points from it, but the route
it draws is the embedded "sample route", not the remote one. -/
theorem remote_mode_draws_embedded_routes :
    selectData asciiRuntime
        (.response true 200 (.ok (.obj [("hotspots", .arr [.arr [.num (.fin 10), .num (.fin 20),
            .num (.fin 1)]]),
          ("migrations", .arr [.obj [("name", .str "remote route"),
            ("path", .arr [pt 0 0, pt 5 5])]])])))
        .fathomnet none
        (.obj [("common", .str "Blue Whale"), ("fathomnetConcept", .str "Blue Whale"),
          ("hotspots", .arr []),
          ("migrations", .arr [.obj [("name", .str "sample route"),
            ("path", .arr [pt 50 50, pt 60 60])]])])
      = .ok (none,
          ⟨.arr [.arr [.num (.fin 10), .num (.fin 20), .num (.fin 1)]],
           .arr [.obj [("name", .str "remote route"), ("path", .arr [pt 0 0, pt 5 5])]]⟩)
    ∧ (renderPanel asciiRuntime
        (.response true 200 (.ok (.obj [("hotspots", .arr [.arr [.num (.fin 10), .num (.fin 20),
            .num (.fin 1)]]),
          ("migrations", .arr [.obj [("name", .str "remote route"),
            ("path", .arr [pt 0 0, pt 5 5])]])])))
        (readyState (catalogOf "Blue Whale" []
          [.obj [("name", .str "sample route"), ("path", .arr [pt 50 50, pt 60 60])]])
          "1" (.num (.fin 0)) .fathomnet)).screen.heatLayer
        = some ⟨[.arr [.num (.fin 10), .num (.fin 20), .num (.fin 1)]], true⟩
    ∧ (renderPanel asciiRuntime
        (.response true 200 (.ok (.obj [("hotspots", .arr [.arr [.num (.fin 10), .num (.fin 20),
            .num (.fin 1)]]),
          ("migrations", .arr [.obj [("name", .str "remote route"),
            ("path", .arr [pt 0 0, pt 5 5])]])])))
        (readyState (catalogOf "Blue Whale" []
          [.obj [("name", .str "sample route"), ("path", .arr [pt 50 50, pt 60 60])]])
          "1" (.num (.fin 0)) .fathomnet)).screen.routeGroup
        = some ⟨[⟨[pt 50 50, pt 60 60], .str "sample route"⟩], true⟩ :=
  ⟨rfl, rfl, rfl⟩

/-! ## Label resolution (C2) -/

theorem orElse_str (l d : String) : ∃ x, orElse (.str l) (.str d) = .str x := by
  unfold orElse
  split
  · exact ⟨l, rfl⟩
  · exact ⟨d, rfl⟩

theorem orElse_str_empty (l : String) : orElse (.str l) (.str "") = .str l := by
  unfold orElse truthy
  by_cases h : l = ""
  · simp [h]
  · simp [h]

theorem assignText_str (rt : Runtime) (el : Option String) (x : String) :
    assignText rt el (.ok (.str x)) = .ok (el.map (fun _ => x)) := by
  cases el <;> rfl

theorem field_common_truthy (t : JsVal) (c : String) (h : field t "common" = .str c) :
    truthy t = true := by
  cases t <;> first | rfl | simp [field] at h

theorem matchesLabel_str (rt : Runtime) (l : String) (t : JsVal) :
    matchesLabel rt (.str l) t = .ok (namedIgnoringCase rt l t) := by
  unfold matchesLabel namedIgnoringCase
  cases hf : field t "common" with
  | str c =>
    simp [field_common_truthy t c hf, orElse_str_empty, toStr]
  | _ => by_cases ht : truthy t = true <;> simp [ht]

theorem findIndexFrom_total (f : JsVal → Except String Bool) (g : JsVal → Bool)
    (h : ∀ x, f x = .ok (g x)) (i : Nat) (xs : List JsVal) :
    findIndexFrom f i xs = .ok (firstFrom g i xs) := by
  induction xs generalizing i with
  | nil => rfl
  | cons x rest ih =>
    unfold findIndexFrom firstFrom
    rw [h x]
    cases g x
    · simpa using ih (i + 1)
    · simp

theorem firstFrom_some (g : JsVal → Bool) (xs : List JsVal) (i j : Nat)
    (h : firstFrom g i xs = some j) :
    ∃ k t, j = i + k ∧ xs.get? k = some t ∧ g t = true ∧
      ∀ m u, m < k → xs.get? m = some u → g u = false := by
  induction xs generalizing i with
  | nil => cases h
  | cons x rest ih =>
    unfold firstFrom at h
    by_cases hx : g x = true
    · simp only [hx, if_true, Option.some.injEq] at h
      refine ⟨0, x, by omega, rfl, hx, ?_⟩
      intro m u hm
      omega
    · simp only [hx] at h
      obtain ⟨k, t, hj, hk, hg, hmin⟩ := ih (i + 1) h
      refine ⟨k + 1, t, by omega, hk, hg, ?_⟩
      intro m u hm hu
      cases m with
      | zero =>
        simp only [List.get?_cons_zero, Option.some.injEq] at hu
        subst hu
        simpa using hx
      | succ m => exact hmin m u (by omega) hu

theorem firstFrom_none (g : JsVal → Bool) (xs : List JsVal) (i : Nat)
    (h : firstFrom g i xs = none) : ∀ x ∈ xs, g x = false := by
  induction xs generalizing i with
  | nil => intro x hx; cases hx
  | cons x rest ih =>
    unfold firstFrom at h
    by_cases hx : g x = true
    · simp [hx] at h
    · simp only [hx] at h
      intro y hy
      rcases List.mem_cons.mp hy with rfl | hy
      · simpa using hx
      · exact ih (i + 1) h y hy

theorem setDetectedLabel_activeIndex (rt : Runtime) (net : FetchOutcome) (s : State)
    (l : String) (hready : s.uiReady = true) :
    (setDetectedLabel rt net s (.str l)).activeIndex
      = indexValue (firstFrom (namedIgnoringCase rt l) 0 (catalog s.speciesData)) := by
  obtain ⟨x, hx⟩ := orElse_str l "—"
  unfold setDetectedLabel resolveLabel
  simp only [hready, hx, assignText_str,
    findIndexFrom_total _ _ (matchesLabel_str rt l), Bool.not_true, Bool.false_eq_true, if_false]
  cases hfi : firstFrom (namedIgnoringCase rt l) 0 (catalog s.speciesData) with
  | some idx => rfl
  | none =>
    simp only [setNoData, clearNoData, toStr]
    cases s.screen.dom.noDataMsg <;> rfl

/-- C2. Once the UI is ready, for every catalog and every text label,
`setDetectedLabel(label)` leaves the active index either at a position of the
catalog whose entry has a common name equal to the label ignoring letter case
(both lower-cased by `toLowerCase`), the first such position, or at none
(`null`), and then no entry of the catalog, an empty catalog included, has a
common name equal to the label ignoring case. Two labels that differ only in
case resolve to the same index. -/
theorem setDetectedLabel_resolves_ignoring_case (rt : Runtime) (net : FetchOutcome)
    (s : State) (l : String) (hready : s.uiReady = true) :
    ((∃ (i : Nat) (t : JsVal) (c : String),
        (setDetectedLabel rt net s (.str l)).activeIndex = .num (.fin i)
        ∧ (catalog s.speciesData).get? i = some t
        ∧ field t "common" = .str c ∧ rt.toLowerCase c = rt.toLowerCase l
        ∧ ∀ (j : Nat) (u : JsVal), j < i → (catalog s.speciesData).get? j = some u →
            namedIgnoringCase rt l u = false)
      ∨ ((setDetectedLabel rt net s (.str l)).activeIndex = .null
        ∧ ∀ t ∈ catalog s.speciesData, ∀ c, field t "common" = .str c →
            rt.toLowerCase c ≠ rt.toLowerCase l))
    ∧ (∀ l2, rt.toLowerCase l2 = rt.toLowerCase l →
        (setDetectedLabel rt net s (.str l2)).activeIndex
          = (setDetectedLabel rt net s (.str l)).activeIndex) := by
  constructor
  · rw [setDetectedLabel_activeIndex rt net s l hready]
    cases hfi : firstFrom (namedIgnoringCase rt l) 0 (catalog s.speciesData) with
    | some idx =>
      left
      obtain ⟨k, t, hj, hk, hg, hmin⟩ := firstFrom_some _ _ 0 idx hfi
      have hidx : idx = k := by omega
      subst hidx
      unfold namedIgnoringCase at hg
      cases hc : field t "common" with
      | str c =>
        rw [hc] at hg
        exact ⟨idx, t, c, rfl, hk, hc, by simpa using hg, fun j u hj hu => hmin j u hj hu⟩
      | _ => rw [hc] at hg; exact Bool.noConfusion hg
    | none =>
      right
      refine ⟨rfl, ?_⟩
      intro t ht c hc heq
      have := firstFrom_none _ _ 0 hfi t ht
      simp [namedIgnoringCase, hc, heq] at this
  · intro l2 h2
    rw [setDetectedLabel_activeIndex rt net s l hready,
      setDetectedLabel_activeIndex rt net s l2 hready]
    have : namedIgnoringCase rt l2 = namedIgnoringCase rt l := by
      funext t
      simp only [namedIgnoringCase, h2]
    rw [this]

/-- C2, an instance: against a catalog holding "Blue Whale", the labels
"blue whale" and "BLUE WHALE" both resolve to index 0, and the near-miss
"Blu Whale" resolves to none. -/
theorem setDetectedLabel_resolves_ignoring_case_witness :
    (readyState (catalogOf "Blue Whale" [] []) "1" .null .sample).uiReady = true
    ∧ asciiRuntime.toLowerCase "blue whale" = asciiRuntime.toLowerCase "BLUE WHALE"
    ∧ (setDetectedLabel asciiRuntime (.rejected "offline")
        (readyState (catalogOf "Blue Whale" [] []) "1" .null .sample)
        (.str "blue whale")).activeIndex = .num (.fin 0)
    ∧ (setDetectedLabel asciiRuntime (.rejected "offline")
        (readyState (catalogOf "Blue Whale" [] []) "1" .null .sample)
        (.str "BLUE WHALE")).activeIndex = .num (.fin 0)
    ∧ (setDetectedLabel asciiRuntime (.rejected "offline")
        (readyState (catalogOf "Blue Whale" [] []) "1" .null .sample)
        (.str "Blu Whale")).activeIndex = .null :=
  ⟨rfl, rfl,
   ((setDetectedLabel_resolves_ignoring_case asciiRuntime (.rejected "offline")
      (readyState (catalogOf "Blue Whale" [] []) "1" .null .sample) "BLUE WHALE" rfl).2
      "blue whale" rfl).trans rfl,
   rfl, rfl⟩

/-! ## Queued label (C3) -/

theorem resolveLabel_frame (rt : Runtime) (net : FetchOutcome) (s : State) (label : JsVal) :
    SameControl (resolveLabel rt net s label) s := by
  unfold resolveLabel SameControl
  dsimp only
  repeat' split
  all_goals exact ⟨rfl, rfl, rfl, rfl, rfl⟩

theorem wireDataSourceToggle_frame (rt : Runtime) (net : FetchOutcome) (s : State) :
    SameControl (wireDataSourceToggle rt net s) s := by
  unfold wireDataSourceToggle setDataSource SameControl
  dsimp only
  repeat' split
  all_goals exact ⟨rfl, rfl, rfl, rfl, rfl⟩

theorem initSetup_frame (rt : Runtime) (net : FetchOutcome) (s s1 : State)
    (h : initSetup rt net s = (s1, none)) :
    s1.uiReady = s.uiReady ∧ s1.queuedLabel = s.queuedLabel ∧ s1.resolved = s.resolved
      ∧ s1.timers = s.timers ++ urlTimers s.urlLabel := by
  unfold initSetup at h
  dsimp only at h
  split at h
  · cases h
  · split at h
    · cases h
    · split at h
      · cases h
      · cases h
        rename_i dom3 _
        obtain ⟨h1, h2, h3, h4, h5⟩ := wireDataSourceToggle_frame rt net
          { s with screen := { s.screen with dom := dom3 } }
        refine ⟨h1, h2, h4, ?_⟩
        dsimp only
        rw [h3, h5]
        rfl

theorem queue_before_ready (rt : Runtime) (net : FetchOutcome) (labels : List JsVal)
    (s : State) (h : s.uiReady = false) :
    labels.foldl (setDetectedLabel rt net) s
      = { s with queuedLabel := labels.getLast?.getD s.queuedLabel } := by
  induction labels generalizing s with
  | nil => rfl
  | cons l rest ih =>
    have hstep : setDetectedLabel rt net s l = { s with queuedLabel := l } := by
      simp [setDetectedLabel, h]
    rw [List.foldl_cons, hstep, ih { s with queuedLabel := l } h, List.getLast?_cons]
    rfl

theorem initUI_replay (rt : Runtime) (net : FetchOutcome) (s : State)
    (hsetup : (initSetup rt net s).2 = none) :
    (truthy s.queuedLabel = true →
      (initUI rt net s).resolved = s.resolved ++ [s.queuedLabel]
      ∧ (initUI rt net s).queuedLabel = .null ∧ (initUI rt net s).uiReady = true)
    ∧ (truthy s.queuedLabel = false →
      (initUI rt net s).resolved = s.resolved
      ∧ (initUI rt net s).queuedLabel = s.queuedLabel ∧ (initUI rt net s).uiReady = true)
    ∧ (initUI rt net s).timers = s.timers ++ urlTimers s.urlLabel := by
  cases hs : initSetup rt net s with
  | mk s1 err =>
  rw [hs] at hsetup
  simp only at hsetup
  subst hsetup
  obtain ⟨h1, h2, h3, h4⟩ := initSetup_frame rt net s s1 hs
  unfold initUI
  rw [hs]
  dsimp only
  by_cases hq : truthy s.queuedLabel = true
  · have hq1 : truthy s1.queuedLabel = true := by rw [h2]; exact hq
    obtain ⟨f1, f2, f3, f4, f5⟩ := resolveLabel_frame rt net
      { s1 with uiReady := true, queuedLabel := .null,
                resolved := s1.resolved ++ [s1.queuedLabel] } s1.queuedLabel
    simp only [hq1, if_true, setDetectedLabel, Bool.not_true, Bool.false_eq_true, if_false]
    refine ⟨fun _ => ?_, fun hf => ?_, ?_⟩
    · split <;> (dsimp only; rw [f4, f2, f1, h3, h2]; exact ⟨rfl, rfl, rfl⟩)
    · rw [hq] at hf; exact Bool.noConfusion hf
    · split <;> (dsimp only; rw [f3, h4])
  · have hq1 : ¬ truthy s1.queuedLabel = true := by rw [h2]; exact hq
    simp only [hq1, if_false]
    refine ⟨fun ht => absurd ht hq, fun _ => ?_, ?_⟩
    · split <;> exact ⟨h3, h2, rfl⟩
    · split <;> exact h4

/-- C3 (as amended). Let one or more `setDetectedLabel` calls be made while
the UI is not ready, and let `__initUI` then run with none of its steps before
the replay throwing. The calls resolve nothing and leave the label of the last
call queued. If that label is truthy (a non-empty text), `__initUI` performs
exactly one resolution, for that label, marks the UI ready and leaves the
queue empty (`null`); no earlier label is resolved. If it is falsy (the empty
text), `__initUI` resolves nothing and the label stays queued. The only other
resolution `__initUI` arranges is the deferred one for a non-empty `label`
parameter of the page URL. -/
theorem queued_label_replayed_once (rt : Runtime) (net : FetchOutcome) (s : State)
    (labels : List JsVal) (last : JsVal)
    (hnot : s.uiReady = false) (hlast : labels.getLast? = some last)
    (hsetup : (initSetup rt net (labels.foldl (setDetectedLabel rt net) s)).2 = none) :
    (labels.foldl (setDetectedLabel rt net) s).resolved = s.resolved
    ∧ (labels.foldl (setDetectedLabel rt net) s).queuedLabel = last
    ∧ (truthy last = true →
        (initUI rt net (labels.foldl (setDetectedLabel rt net) s)).resolved
          = s.resolved ++ [last]
        ∧ (initUI rt net (labels.foldl (setDetectedLabel rt net) s)).queuedLabel = .null
        ∧ (initUI rt net (labels.foldl (setDetectedLabel rt net) s)).uiReady = true)
    ∧ (truthy last = false →
        (initUI rt net (labels.foldl (setDetectedLabel rt net) s)).resolved = s.resolved
        ∧ (initUI rt net (labels.foldl (setDetectedLabel rt net) s)).queuedLabel = last)
    ∧ (initUI rt net (labels.foldl (setDetectedLabel rt net) s)).timers
        = s.timers ++ urlTimers s.urlLabel := by
  have hq := queue_before_ready rt net labels s hnot
  rw [hlast] at hq
  simp only [Option.getD_some] at hq
  rw [hq] at hsetup ⊢
  obtain ⟨h1, h2, h3⟩ := initUI_replay rt net { s with queuedLabel := last } hsetup
  refine ⟨rfl, rfl, fun ht => h1 ht, fun hf => ?_, h3⟩
  obtain ⟨a, b, _⟩ := h2 hf
  exact ⟨a, b⟩

/-- C3, an instance: "Orca" then "blue whale" are submitted before bootstrap;
`__initUI` resolves "blue whale" once and nothing else. -/
theorem queued_label_replayed_once_witness :
    (initialState (catalogOf "Blue Whale" [] []) "1").uiReady = false
    ∧ [JsVal.str "Orca", JsVal.str "blue whale"].getLast? = some (.str "blue whale")
    ∧ (initSetup asciiRuntime (.rejected "offline")
        ([JsVal.str "Orca", JsVal.str "blue whale"].foldl
          (setDetectedLabel asciiRuntime (.rejected "offline"))
          (initialState (catalogOf "Blue Whale" [] []) "1"))).2 = none
    ∧ (initUI asciiRuntime (.rejected "offline")
        ([JsVal.str "Orca", JsVal.str "blue whale"].foldl
          (setDetectedLabel asciiRuntime (.rejected "offline"))
          (initialState (catalogOf "Blue Whale" [] []) "1"))).resolved
        = [.str "blue whale"] :=
  ⟨rfl, rfl, by with_unfolding_all rfl,
   ((queued_label_replayed_once asciiRuntime (.rejected "offline")
      (initialState (catalogOf "Blue Whale" [] []) "1")
      [.str "Orca", .str "blue whale"] (.str "blue whale") rfl rfl
      (by with_unfolding_all rfl)).2.2.1 rfl).1⟩

/-- C3 as stated fails: after the single call `setDetectedLabel("")` before
bootstrap, `__initUI` completes and marks the UI ready but performs no
resolution, and the queue still holds the empty label. -/
theorem queued_empty_label_not_replayed :
    (initSetup asciiRuntime (.rejected "offline")
        (setDetectedLabel asciiRuntime (.rejected "offline")
          (initialState (catalogOf "Blue Whale" [] []) "1") (.str ""))).2 = none
    ∧ (initUI asciiRuntime (.rejected "offline")
        (setDetectedLabel asciiRuntime (.rejected "offline")
          (initialState (catalogOf "Blue Whale" [] []) "1") (.str ""))).uiReady = true
    ∧ (initUI asciiRuntime (.rejected "offline")
        (setDetectedLabel asciiRuntime (.rejected "offline")
          (initialState (catalogOf "Blue Whale" [] []) "1") (.str ""))).resolved = []
    ∧ (initUI asciiRuntime (.rejected "offline")
        (setDetectedLabel asciiRuntime (.rejected "offline")
          (initialState (catalogOf "Blue Whale" [] []) "1") (.str ""))).queuedLabel
        = .str "" := by
  refine ⟨?_, ?_, ?_, ?_⟩ <;> with_unfolding_all rfl

/-! ## Month filter of the routes (C5) -/

theorem includesNum_iff (xs : List JsVal) (n : JsNum) :
    includesNum xs n = true ↔ JsVal.num n ∈ xs := by
  unfold includesNum
  rw [List.any_eq_true]
  constructor
  · rintro ⟨v, hv, h⟩
    cases v <;> simp at h
    subst h
    exact hv
  · intro h
    exact ⟨_, h, by simp⟩

theorem inSeason_iff (months : JsVal) (m : ℤ) :
    inSeason months m = true ↔
      (months = .undefined ∨ ∃ ms, months = .arr ms ∧ JsVal.num (.fin m) ∈ ms) := by
  cases months <;> simp [inSeason, includesNum_iff]

theorem field_of_falsy (r : JsVal) (h : truthy r = false) : field r "path" = .undefined := by
  cases r <;> first | rfl | simp [truthy] at h

theorem routeOf_regular (rt : Runtime) (hasPolyline : Bool) (m : ℤ) (r : JsVal)
    (h : Regular rt r) (hpoly : hasPolyline = true) :
    routeOf rt hasPolyline (.fin m) r = .ok (seasonRoute rt m r) := by
  obtain ⟨⟨path, hs⟩, hmonths⟩ := h
  have hsp : sanitizedPath rt r = path := by simp only [sanitizedPath, hs]
  unfold routeOf seasonRoute
  rw [hsp]
  by_cases hr : truthy r = true
  · cases hp : field r "path" with
    | arr ps =>
      rw [hp] at hs
      simp only [hr, isArray, Bool.not_true, Bool.or_self, Bool.false_eq_true, if_false, hs]
      subst hpoly
      rcases hmonths with hm | ⟨ms, hm⟩
      · by_cases hl : path.length = 0 <;> simp [hm, monthActive, truthy, inSeason, hl]
      · simp only [hm, monthActive, truthy, inSeason, Bool.not_true, Bool.false_eq_true,
          if_false]
        by_cases hl : path.length = 0 <;> cases includesNum ms (.fin m) <;> simp [hl]
    | _ =>
      rw [hp] at hs
      cases hs
      simp [hr, isArray]
  · have hr2 : truthy r = false := by simpa using hr
    rw [field_of_falsy r hr2] at hs
    cases hs
    simp [hr2]

theorem drawRoutes_total (rt : Runtime) (hasPolyline : Bool) (monthVal : JsNum)
    (f : JsVal → Option Route) (rs : List JsVal)
    (h : ∀ r ∈ rs, routeOf rt hasPolyline monthVal r = .ok (f r)) :
    drawRoutes rt hasPolyline monthVal rs = (rs.filterMap f, none) := by
  induction rs with
  | nil => rfl
  | cons r rest ih =>
    have hr := h r (List.mem_cons_self r rest)
    have ht := ih (fun x hx => h x (List.mem_cons_of_mem r hx))
    unfold drawRoutes
    rw [hr, ht]
    cases hf : f r <;> simp [List.filterMap_cons, hf]

theorem renderMap_routes (rt : Runtime) (lib : Leaflet) (monthVal : JsNum) (t : JsVal)
    (data : Fetched) (s : Screen) (g : RouteGroup) (heat : List JsVal) (routes : List Route)
    (hheat : heatData rt data.hotspots = .ok heat)
    (hg : s.routeGroup = some g) (hclear : g.clearLayers = true)
    (hdraw : drawRoutes rt lib.polyline monthVal (migrationsOf t) = (routes, none)) :
    (renderMap rt (some lib) monthVal t data s).routeGroup = some { g with routes := routes } := by
  unfold renderMap
  simp only [hheat, hg, hclear, hdraw, if_true, Option.map_some']
  repeat' split
  all_goals rfl

theorem selectData_total (rt : Runtime) (net : FetchOutcome) (source : DataSrc)
    (status : Option String) (t : JsVal) :
    ∃ st data, selectData rt net source status t = .ok (st, data) := by
  unfold selectData
  split
  · unfold fetchFathomNetPoints
    cases fetchBody rt status (field t "fathomnetConcept") net with
    | ok r => exact ⟨r.1, r.2, rfl⟩
    | error e => exact ⟨_, _, rfl⟩
  · exact ⟨_, _, rfl⟩

/-- C5 (as amended). Let `renderPanel` run on a page with the panel and the
month slider, the slider reading the month `m` (any integer, so each of
1..12), for an active record `t`. Suppose the render raises no exception and
the map is available: the text fields are written, `ensureMap` succeeds and
the map has a route group that can be cleared, the library has `polyline`,
the heat points of the selected data are computed, and every migration of the
record is handled without an exception (its path sanitizes, its `months` is
absent or an array). Then the route group `renderPanel` leaves holds, in the
order of the migrations, exactly the routes of the migrations that have a
non-empty sanitized path and whose `months` is absent or contains `m`. So a
migration with a non-empty sanitized path is drawn if and only if its months
set is absent or contains `m`, as its sanitized path under its name or the
default label. -/
theorem renderPanel_draws_in_season_routes (rt : Runtime) (net : FetchOutcome) (s : State)
    (m : ℤ) (p : Panel) (value : String) (t : JsVal) (dom2 : Dom) (lib : Leaflet)
    (s3 : Screen) (g : RouteGroup)
    (hp : s.screen.dom.panel = some p) (hv : s.screen.dom.monthInput = some value)
    (hm : toNumber rt (orElse (.str value) (.num (.fin 1))) = .ok (.fin m))
    (hrec : activeType (catalog s.speciesData) s.activeIndex = t) (ht : truthy t = true)
    (htexts : presentTexts rt { s.screen.dom with panel := some { p with hidden := false } } t
      = (dom2, none))
    (hlib : s.leaflet = some lib) (hpoly : lib.polyline = true)
    (hmap : ensureMap (some lib) { s.screen with dom := dom2 } = (s3, true))
    (hg : s3.routeGroup = some g) (hclear : g.clearLayers = true)
    (hheat : ∀ st data, selectData rt net s.activeDataSource s3.dom.srcStatus t
        = .ok (st, data) → ∃ heat, heatData rt data.hotspots = .ok heat)
    (hwf : ∀ r ∈ migrationsOf t, Regular rt r) :
    (renderPanel rt net s).screen.routeGroup
      = some { g with routes := (migrationsOf t).filterMap (seasonRoute rt m) }
    ∧ ∀ r ∈ migrationsOf t, ∀ path, sanitizePoints rt (field r "path") = .ok path →
        path ≠ [] →
        (seasonRoute rt m r = some ⟨path, orElse (field r "name") (.str "migration")⟩
          ∧ (field r "months" = .undefined
              ∨ ∃ ms, field r "months" = .arr ms ∧ JsVal.num (.fin m) ∈ ms))
        ∨ (seasonRoute rt m r = none
          ∧ ¬ (field r "months" = .undefined
              ∨ ∃ ms, field r "months" = .arr ms ∧ JsVal.num (.fin m) ∈ ms)) := by
  constructor
  · obtain ⟨st, data, hsel⟩ := selectData_total rt net s.activeDataSource s3.dom.srcStatus t
    obtain ⟨heat, hheat2⟩ := hheat st data hsel
    have hdraw := drawRoutes_total rt lib.polyline (.fin m) (seasonRoute rt m)
      (migrationsOf t) (fun r hr => routeOf_regular rt lib.polyline m r (hwf r hr) hpoly)
    have hroutes := renderMap_routes rt lib (.fin m) t data
      { s3 with dom := { s3.dom with srcStatus := st } } g heat _ hheat2 hg hclear hdraw
    unfold renderPanel renderScreen
    split
    · rename_i panel value2 hpe hve
      have e1 : panel = p := Option.some.inj (hpe.symm.trans hp)
      have e2 : value2 = value := Option.some.inj (hve.symm.trans hv)
      subst e1 e2
      simp only [hrec, ht, hm, htexts, hlib, hmap, hsel, Bool.not_true, Bool.false_eq_true,
        if_false]
      exact hroutes
    · rename_i hno
      exact absurd hv (hno p value hp)
  · intro r _ path hs hne
    have hsp : sanitizedPath rt r = path := by simp only [sanitizedPath, hs]
    have hlen : path.length ≠ 0 := fun h0 => hne (List.length_eq_zero.mp h0)
    rw [← inSeason_iff]
    unfold seasonRoute
    rw [hsp]
    cases inSeason (field r "months") m <;> simp [hlen]

/-- C5, an instance: on the sample page showing a species with a route for
months 3, 4, 5 and a route without months, `renderPanel` draws both with the
slider at 3 and only the second with the slider at 6. -/
theorem renderPanel_draws_in_season_routes_witness :
    (viewing [] seasonalMigrations "3").screen.dom.monthInput = some "3"
    ∧ toNumber asciiRuntime (orElse (.str "3") (.num (.fin 1))) = .ok (.fin ((3 : ℤ) : ℚ))
    ∧ (∀ r ∈ seasonalMigrations, Regular asciiRuntime r)
    ∧ (renderPanel asciiRuntime (.rejected "offline")
        (viewing [] seasonalMigrations "3")).screen.routeGroup
        = some ⟨[⟨[pt 10 10, pt 20 20], .str "spring run"⟩,
                 ⟨[pt 0 0, pt 5 5], .str "migration"⟩], true⟩
    ∧ (renderPanel asciiRuntime (.rejected "offline")
        (viewing [] seasonalMigrations "6")).screen.routeGroup
        = some ⟨[⟨[pt 0 0, pt 5 5], .str "migration"⟩], true⟩ := by
  have hwf : ∀ r ∈ seasonalMigrations, Regular asciiRuntime r := by
    intro r hr
    have hr2 : r = .obj [("name", .str "spring run"), ("path", .arr [pt 10 10, pt 20 20]),
               ("months", .arr [.num (.fin 3), .num (.fin 4), .num (.fin 5)])]
        ∨ r = .obj [("path", .arr [pt 0 0, pt 5 5])] := by
      simpa [seasonalMigrations] using hr
    rcases hr2 with rfl | rfl
    · exact ⟨⟨[pt 10 10, pt 20 20], rfl⟩, Or.inr ⟨_, rfl⟩⟩
    · exact ⟨⟨[pt 0 0, pt 5 5], rfl⟩, Or.inl rfl⟩
  have hheat : ∀ (month : String) (st : Option String) (data : Fetched),
      selectData asciiRuntime (.rejected "offline") .sample (some "")
        (activeType (catalog (catalogOf "Blue Whale" [] seasonalMigrations)) (.num (.fin 0)))
        = .ok (st, data) → ∃ heat, heatData asciiRuntime data.hotspots = .ok heat := by
    intro _ st data h
    have h2 : selectData asciiRuntime (.rejected "offline") .sample (some "")
        (activeType (catalog (catalogOf "Blue Whale" [] seasonalMigrations)) (.num (.fin 0)))
        = .ok (some "", ⟨.arr [], .arr seasonalMigrations⟩) := rfl
    rw [h2] at h
    cases h
    exact ⟨[], rfl⟩
  refine ⟨rfl, by with_unfolding_all rfl, hwf, ?_, ?_⟩
  · exact (renderPanel_draws_in_season_routes asciiRuntime (.rejected "offline")
      (viewing [] seasonalMigrations "3") 3 ⟨true, false⟩ "3" _ _ fullLeaflet _ ⟨[], true⟩
      rfl rfl (by with_unfolding_all rfl) rfl rfl rfl rfl rfl rfl rfl rfl (hheat "3")
      hwf).1.trans rfl
  · exact (renderPanel_draws_in_season_routes asciiRuntime (.rejected "offline")
      (viewing [] seasonalMigrations "6") 6 ⟨true, false⟩ "6" _ _ fullLeaflet _ ⟨[], true⟩
      rfl rfl (by with_unfolding_all rfl) rfl rfl rfl rfl rfl rfl rfl rfl (hheat "6")
      hwf).1.trans rfl

/-- C5 as stated fails: the species has the hotspot list `[null]` and one
migration without `months` whose path `[[10, 10], [20, 20]]` sanitizes to two
points. With the slider at month 1 the claim has the route drawn; reading
`h[0]` of the `null` hotspot (line 166) throws before the routes are
rebuilt, the `catch` of line 195 shows the error banner, and the route group
stays empty. -/
theorem in_season_route_lost_to_exception :
    sanitizePoints asciiRuntime (field (.obj [("path", .arr [pt 10 10, pt 20 20])]) "path")
      = .ok [pt 10 10, pt 20 20]
    ∧ field (.obj [("path", .arr [pt 10 10, pt 20 20])]) "months" = .undefined
    ∧ (renderPanel asciiRuntime (.rejected "offline")
        (viewing [.null] [.obj [("path", .arr [pt 10 10, pt 20 20])]] "1")).screen.routeGroup
        = some ⟨[], true⟩
    ∧ Option.map Banner.hidden (renderPanel asciiRuntime (.rejected "offline")
        (viewing [.null] [.obj [("path", .arr [pt 10 10, pt 20 20])]] "1")).screen.dom.errBanner
        = some false := by
  refine ⟨rfl, rfl, ?_, ?_⟩ <;> with_unfolding_all rfl

end App
